import Mathlib

/-!
Shallow embedding of `src/web3/contracts/Ava.rs`, the battle state machine and
combat resolution engine of Sorobon-Battles.

Modelling conventions:
* u256 values are natural numbers; arithmetic that the source performs on u256
  is made explicit with `addU`/`subU`, which wrap modulo `2 ^ 256` exactly as
  unsigned 256-bit arithmetic does.
* `Address` is a natural number; the all-zero sentinel address is `0`.
* The ambient `sender` of the source (the authenticated caller) is an explicit
  parameter of each operation.
* `rand::thread_rng` draws are explicit oracle parameters: each function that
  draws randomness receives the raw draw(s) as extra `Nat` arguments.
* The global `lazy_static` registries (`PLAYER_INFO`, `PLAYER_TOKEN_INFO`,
  `BATTLE_INFO`, `PLAYERS`, `GAME_TOKENS`, `BATTLES`, `TOTAL_SUPPLY`) are the
  fields of an explicit `GameState` that every operation threads.
* `HashMap` key-to-index maps are association lists with insert-overwrites
  semantics (`insertA` / `insertS`).
* `.unwrap()` / indexing that would panic on an absent entry is modelled
  totally: the operation leaves the state unchanged (theorems about populated
  states supply hypotheses under which the lookups succeed, so the default
  never matters).
* The only live event emission in the source is `emit_battle_ended`
  (line 443); it is modelled as an `events` log in the state.
* `battle_hash` (a keccak256 of the battle name, never read by any game
  logic) is not modelled.
-/

namespace Ava

/-- Addresses (20-byte in the source) are modelled as naturals; `0` is the
all-zero sentinel address. -/
abbrev Address := Nat

/-- The u256 modulus. -/
def U256 : Nat := 2 ^ 256

/-- Wrapping u256 subtraction: `a - b` as unsigned 256-bit arithmetic computes
it (for `a b < 2 ^ 256`). -/
def subU (a b : Nat) : Nat := (a + U256 - b) % U256

/-- Wrapping u256 addition. -/
def addU (a b : Nat) : Nat := (a + b) % U256

/-- `struct GameToken` (Ava.rs lines 12-17). -/
structure GameToken where
  name : String
  id : Nat
  attack_strength : Nat
  defense_strength : Nat
deriving Repr, DecidableEq

/-- `struct Player` (Ava.rs lines 19-25). -/
structure Player where
  player_address : Address
  player_name : String
  player_mana : Nat
  player_health : Nat
  in_battle : Bool
deriving Repr, DecidableEq

/-- `enum BattleStatus` (Ava.rs lines 27-31). -/
inductive BattleStatus where
  | PENDING
  | STARTED
  | ENDED
deriving Repr, DecidableEq

/-- `struct Battle` (Ava.rs lines 33-40); `players` and `moves` are the
two-element arrays (slot 0, slot 1); `battle_hash` is not modelled. -/
structure Battle where
  battle_status : BattleStatus
  name : String
  players : Address × Address
  moves : Nat × Nat
  winner : Address
deriving Repr, DecidableEq

/-- `battle.moves[i]`. -/
def Battle.getMove (b : Battle) (i : Nat) : Nat :=
  if i = 0 then b.moves.1 else b.moves.2

/-- `battle.moves[i] = v`. -/
def Battle.setMove (b : Battle) (i : Nat) (v : Nat) : Battle :=
  if i = 0 then { b with moves := (v, b.moves.2) } else { b with moves := (b.moves.1, v) }

/-- The one event the source actually emits: `emit_battle_ended(name, winner,
loser)` (Ava.rs line 443). -/
inductive GameEvent where
  | battleEnded (name : String) (winner loser : Address)
deriving Repr, DecidableEq

/-- The global registries of Ava.rs lines 42-58, as one explicit state. -/
structure GameState where
  player_info : List (Address × Nat)
  player_token_info : List (Address × Nat)
  battle_info : List (String × Nat)
  players : List Player
  game_tokens : List GameToken
  battles : List Battle
  total_supply : Nat
  events : List GameEvent
deriving Repr, DecidableEq

/-- Association-list lookup for the address-keyed `HashMap`s. -/
def alookup (m : List (Address × Nat)) (k : Address) : Option Nat :=
  (m.find? (fun p => p.1 == k)).map Prod.snd

/-- Association-list lookup for the name-keyed `HashMap`. -/
def slookup (m : List (String × Nat)) (k : String) : Option Nat :=
  (m.find? (fun p => p.1 == k)).map Prod.snd

/-- `HashMap::insert` for address keys (overwrites an existing binding). -/
def insertA (m : List (Address × Nat)) (k : Address) (v : Nat) : List (Address × Nat) :=
  match m with
  | [] => [(k, v)]
  | (k', v') :: rest => if k' = k then (k, v) :: rest else (k', v') :: insertA rest k v

/-- `HashMap::insert` for string keys. -/
def insertS (m : List (String × Nat)) (k : String) (v : Nat) : List (String × Nat) :=
  match m with
  | [] => [(k, v)]
  | (k', v') :: rest => if k' = k then (k, v) :: rest else (k', v') :: insertS rest k v

/-- The reserved index-0 `Player` entry (Ava.rs lines 113-119). -/
def sentinelPlayer : Player :=
  { player_address := 0, player_name := "", player_mana := 0, player_health := 0,
    in_battle := false }

/-- The reserved index-0 `GameToken` entry (Ava.rs lines 106-111). -/
def sentinelToken : GameToken :=
  { name := "", id := 0, attack_strength := 0, defense_strength := 0 }

/-- The reserved index-0 `Battle` entry (Ava.rs lines 121-128). -/
def sentinelBattle : Battle :=
  { battle_status := .PENDING, name := "", players := (0, 0), moves := (0, 0), winner := 0 }

/-- `is_player` (Ava.rs lines 60-62). -/
def is_player (s : GameState) (addr : Address) : Bool :=
  (alookup s.player_info addr).isSome

/-- `get_player` (Ava.rs lines 64-67). -/
def get_player (s : GameState) (addr : Address) : Option Player :=
  (alookup s.player_info addr).bind fun i => s.players.get? i

/-- `getPlayer(sender)` as the source uses it: the panicking unwrap is
modelled with the sentinel default (theorems supply existence hypotheses). -/
def getPlayerD (s : GameState) (addr : Address) : Player :=
  (get_player s addr).getD sentinelPlayer

/-- `get_player_token` (Ava.rs lines 77-80). -/
def get_player_token (s : GameState) (addr : Address) : Option GameToken :=
  (alookup s.player_token_info addr).bind fun i => s.game_tokens.get? i

/-- `getPlayer_token(addr)` with the panicking unwrap modelled via sentinel. -/
def getPlayerTokenD (s : GameState) (addr : Address) : GameToken :=
  (get_player_token s addr).getD sentinelToken

/-- `is_battle` (Ava.rs lines 86-88). -/
def is_battle (s : GameState) (name : String) : Bool :=
  (slookup s.battle_info name).isSome

/-- `get_battle` (Ava.rs lines 90-93). -/
def get_battle (s : GameState) (name : String) : Option Battle :=
  (slookup s.battle_info name).bind fun i => s.battles.get? i

/-- `update_battle` (Ava.rs lines 99-103): replace the battle at the name's
index; silently does nothing when the name is unknown, as the source does. -/
def update_battle (s : GameState) (name : String) (new_battle : Battle) : GameState :=
  match slookup s.battle_info name with
  | some i => { s with battles := s.battles.set i new_battle }
  | none => s

/-- `PLAYERS[i] = f(PLAYERS[i])`; out-of-range indexing (a panic in the
source) is modelled as a no-op. -/
def modifyPlayerAt (s : GameState) (i : Nat) (f : Player → Player) : GameState :=
  match s.players.get? i with
  | some p => { s with players := s.players.set i (f p) }
  | none => s

/-- `GAME_TOKENS[i] = f(GAME_TOKENS[i])`; out-of-range is a no-op. -/
def modifyTokenAt (s : GameState) (i : Nat) (f : GameToken → GameToken) : GameState :=
  match s.game_tokens.get? i with
  | some t => { s with game_tokens := s.game_tokens.set i (f t) }
  | none => s

/-- `MAX_ATTACK_DEFEND_STRENGTH` (Ava.rs line 57). -/
def MAX_ATTACK_DEFEND_STRENGTH : Nat := 10

/-- The six kind constants (Ava.rs lines 51-56). -/
def DEVIL : Nat := 0

def GRIFFIN : Nat := 1

def FIREBIRD : Nat := 2

def KAMO : Nat := 3

def KUKULKAN : Nat := 4

def CELESTION : Nat := 5

/-- `create_random_num` (Ava.rs lines 131-140): `rand` is the raw
`rng.gen_range(0..u256::MAX)` draw; the result is `rand % max`, with a raw
residue of 0 replaced by `max / 2`.  The `sender` argument is unused, as in
the source. -/
def create_random_num (max : Nat) (_sender : Address) (rand : Nat) : Nat :=
  let random_value := rand % max
  if random_value = 0 then max / 2 else random_value

/-- `create_game_token` (Ava.rs lines 142-164).  `randStat` is the stat draw
fed to `create_random_num`; `randKind` is the `rng.gen_range(0..100u8)` draw
(the source then computes `randKind % 6 + 1`). -/
def create_game_token (s : GameState) (sender : Address) (name : String)
    (randStat randKind : Nat) : GameToken × GameState :=
  let rand_attack_strength := create_random_num MAX_ATTACK_DEFEND_STRENGTH sender randStat
  let rand_defense_strength := subU MAX_ATTACK_DEFEND_STRENGTH rand_attack_strength
  let rand_id := randKind % 6 + 1
  let new_game_token : GameToken :=
    { name := name, id := rand_id, attack_strength := rand_attack_strength,
      defense_strength := rand_defense_strength }
  let token_index := s.game_tokens.length
  (new_game_token,
    { s with
      game_tokens := s.game_tokens ++ [new_game_token],
      player_token_info := insertA s.player_token_info sender token_index,
      total_supply := addU s.total_supply 1 })

/-- `create_random_game_token` (Ava.rs lines 166-170). -/
def create_random_game_token (s : GameState) (sender : Address) (name : String)
    (randStat randKind : Nat) : GameState :=
  if !(getPlayerD s sender).in_battle && is_player s sender then
    (create_game_token s sender name randStat randKind).2
  else s

/-- `create_battle` (Ava.rs lines 176-197); the error branch leaves the state
unchanged. -/
def create_battle (s : GameState) (sender : Address) (name : String) : GameState :=
  if is_player s sender && !is_battle s name then
    let new_battle : Battle :=
      { battle_status := .PENDING, name := name, players := (sender, 0),
        moves := (0, 0), winner := 0 }
    let battle_index := s.battles.length
    { s with
      battle_info := insertS s.battle_info name battle_index,
      battles := s.battles ++ [new_battle] }
  else s

/-- `join_battle` (Ava.rs lines 199-230); error branches leave the state
unchanged. -/
def join_battle (s : GameState) (sender : Address) (name : String) : GameState :=
  if is_player s sender then
    match get_battle s name with
    | none => s
    | some battle0 =>
      if battle0.battle_status = .PENDING ∧ battle0.players.1 ≠ sender ∧
          !(getPlayerD s sender).in_battle then
        let battle := { battle0 with
          battle_status := BattleStatus.STARTED,
          players := (battle0.players.1, sender) }
        let s1 := update_battle s name battle
        let i1 := (alookup s1.player_info battle.players.1).getD 0
        let s2 := modifyPlayerAt s1 i1 (fun p => { p with in_battle := true })
        let i2 := (alookup s2.player_info battle.players.2).getD 0
        modifyPlayerAt s2 i2 (fun p => { p with in_battle := true })
      else s
  else s

/-- `register_player_move` (Ava.rs lines 237-248).  Note the source only ever
writes the move inside `if choice == 1 && mana >= 3`; a choice of 2 falls
through both branches without recording anything. -/
def register_player_move (s : GameState) (sender : Address) (player choice : Nat)
    (battle_name : String) : GameState :=
  if choice = 1 ∨ choice = 2 then
    if choice = 1 ∧ 3 ≤ (getPlayerD s sender).player_mana then
      match get_battle s battle_name with
      | none => s
      | some battle => update_battle s battle_name (battle.setMove player choice)
    else s
  else s

/-- The `struct P` of Ava.rs lines 295-301. -/
structure P where
  index : Nat
  move : Nat
  health : Nat
  attack : Nat
  defense : Nat
deriving Repr, DecidableEq

/-- `end_battle` (Ava.rs lines 418-445). -/
def end_battle (s : GameState) (battle_ender : Address) (battle : Battle) : GameState :=
  if battle.battle_status ≠ BattleStatus.ENDED then
    let battle2 := { battle with battle_status := BattleStatus.ENDED, winner := battle_ender }
    let s1 := update_battle s battle2.name battle2
    let i1 := (alookup s1.player_info battle2.players.1).getD 0
    let s2 := modifyPlayerAt s1 i1
      (fun p => { p with in_battle := false, player_health := 25, player_mana := 10 })
    let i2 := (alookup s2.player_info battle2.players.2).getD 0
    let s3 := modifyPlayerAt s2 i2
      (fun p => { p with in_battle := false, player_health := 25, player_mana := 10 })
    let battle_loser :=
      if battle_ender = battle2.players.1 then battle2.players.2 else battle2.players.1
    { s3 with events := s3.events ++ [GameEvent.battleEnded battle2.name battle_ender battle_loser] }
  else s

/-- The unconditional tail of `resolve_battle` (Ava.rs lines 389-403): reset
both moves to 0 and re-roll both participants' token stats.  The source's
free `battle_name` can only mean the resolved battle's name.  `rand1`/`rand2`
are the two `create_random_num` draws. -/
def afterRound (sE : GameState) (battle : Battle) (rand1 rand2 : Nat) : GameState :=
  match get_battle sE battle.name with
  | none => sE
  | some b2 =>
    let sR := update_battle sE battle.name { b2 with moves := (0, 0) }
    let random_attack_strength_player1 :=
      create_random_num MAX_ATTACK_DEFEND_STRENGTH b2.players.1 rand1
    let ti1 := (alookup sR.player_token_info b2.players.1).getD 0
    let sT1 := modifyTokenAt sR ti1 (fun t =>
      { t with
        attack_strength := random_attack_strength_player1,
        defense_strength := subU MAX_ATTACK_DEFEND_STRENGTH random_attack_strength_player1 })
    let random_attack_strength_player2 :=
      create_random_num MAX_ATTACK_DEFEND_STRENGTH b2.players.2 rand2
    let ti2 := (alookup sT1.player_token_info b2.players.2).getD 0
    modifyTokenAt sT1 ti2 (fun t =>
      { t with
        attack_strength := random_attack_strength_player2,
        defense_strength := subU MAX_ATTACK_DEFEND_STRENGTH random_attack_strength_player2 })

/-- The branching part of `resolve_battle` (Ava.rs lines 303-388): the four
move combinations, with the state they produce and the local
`damaged_players` array (the source computes it for the commented-out round
notification; unset entries are the zero address). -/
def resolve_branch (s : GameState) (battle : Battle) :
    GameState × (Address × Address) :=
  let p1 : P :=
    { index := (alookup s.player_info battle.players.1).getD 0,
      move := battle.getMove 0,
      health := (getPlayerD s battle.players.1).player_health,
      attack := (getPlayerTokenD s battle.players.1).attack_strength,
      defense := (getPlayerTokenD s battle.players.1).defense_strength }
  let p2 : P :=
    { index := (alookup s.player_info battle.players.2).getD 0,
      move := battle.getMove 1,
      health := (getPlayerD s battle.players.2).player_health,
      attack := (getPlayerTokenD s battle.players.2).attack_strength,
      defense := (getPlayerTokenD s battle.players.2).defense_strength }
  let branch : GameState × (Address × Address) :=
    if p1.move = 1 ∧ p2.move = 1 then
      if p2.health ≤ p1.attack then
        (end_battle s battle.players.1 battle, (0, 0))
      else if p1.health ≤ p2.attack then
        (end_battle s battle.players.2 battle, (0, 0))
      else
        let s1 := modifyPlayerAt s p1.index
          (fun p => { p with player_health := subU p.player_health p2.attack })
        let s2 := modifyPlayerAt s1 p2.index
          (fun p => { p with player_health := subU p.player_health p1.attack })
        let s3 := modifyPlayerAt s2 p1.index
          (fun p => { p with player_mana := subU p.player_mana 3 })
        let s4 := modifyPlayerAt s3 p2.index
          (fun p => { p with player_mana := subU p.player_mana 3 })
        (s4, battle.players)
    else if p1.move = 1 ∧ p2.move = 2 then
      let phad := addU p2.health p2.defense
      if phad ≤ p1.attack then
        (end_battle s battle.players.1 battle, (0, 0))
      else
        let health_after_attack := if p1.attack < p2.defense then p2.health else subU phad p1.attack
        let damaged : Address × Address :=
          if p1.attack < p2.defense then (0, 0) else (battle.players.2, 0)
        let s1 := modifyPlayerAt s p2.index
          (fun p => { p with player_health := health_after_attack })
        let s2 := modifyPlayerAt s1 p1.index
          (fun p => { p with player_mana := subU p.player_mana 3 })
        let s3 := modifyPlayerAt s2 p2.index
          (fun p => { p with player_mana := addU p.player_mana 3 })
        (s3, damaged)
    else if p1.move = 2 ∧ p2.move = 1 then
      let phad := addU p1.health p1.defense
      if phad ≤ p2.attack then
        (end_battle s battle.players.2 battle, (0, 0))
      else
        let health_after_attack := if p2.attack < p1.defense then p1.health else subU phad p2.attack
        let damaged : Address × Address :=
          if p2.attack < p1.defense then (0, 0) else (battle.players.1, 0)
        let s1 := modifyPlayerAt s p1.index
          (fun p => { p with player_health := health_after_attack })
        let s2 := modifyPlayerAt s1 p1.index
          (fun p => { p with player_mana := addU p.player_mana 3 })
        let s3 := modifyPlayerAt s2 p2.index
          (fun p => { p with player_mana := subU p.player_mana 3 })
        (s3, damaged)
    else if p1.move = 2 ∧ p2.move = 2 then
      let s1 := modifyPlayerAt s p1.index
        (fun p => { p with player_mana := addU p.player_mana 3 })
      let s2 := modifyPlayerAt s1 p2.index
        (fun p => { p with player_mana := addU p.player_mana 3 })
      (s2, (0, 0))
    else (s, (0, 0))
  branch

/-- `resolve_battle` (Ava.rs lines 303-403): the move-combination branch
followed by the unconditional fall-through `afterRound` — the source has no
early return after its `end_battle` calls.  The second component is the local
`damaged_players` array. -/
def resolve_battle_full (s : GameState) (battle : Battle) (rand1 rand2 : Nat) :
    GameState × (Address × Address) :=
  let branch := resolve_branch s battle
  (afterRound branch.1 battle rand1 rand2, branch.2)

/-- `resolve_battle`, state part only. -/
def resolve_battle (s : GameState) (battle : Battle) (rand1 rand2 : Nat) : GameState :=
  (resolve_battle_full s battle rand1 rand2).1

/-- `await_battle_results` (Ava.rs lines 279-293). -/
def await_battle_results (s : GameState) (sender : Address) (battle_name : String)
    (rand1 rand2 : Nat) : GameState :=
  match get_battle s battle_name with
  | none => s
  | some battle =>
    if (battle.players.1 = sender ∨ battle.players.2 = sender) ∧
        battle.getMove 0 ≠ 0 ∧ battle.getMove 1 ≠ 0 then
      resolve_battle s battle rand1 rand2
    else s

/-- `attack_or_defend_choice` (Ava.rs lines 250-277).  The actor's slot is
`(battle.players[0] == sender) as usize`, i.e. index 1 when the sender IS the
slot-0 participant and 0 otherwise — the bool-to-integer cast of the source,
reproduced exactly. -/
def attack_or_defend_choice (s : GameState) (sender : Address) (choice : Nat)
    (battle_name : String) (rand1 rand2 : Nat) : GameState :=
  match get_battle s battle_name with
  | none => s
  | some battle =>
    if battle.battle_status = BattleStatus.STARTED ∧
        battle.battle_status ≠ BattleStatus.ENDED ∧
        (battle.players.1 = sender ∨ battle.players.2 = sender) then
      let slot := if battle.players.1 = sender then 1 else 0
      if battle.getMove slot = 0 then
        let s1 := register_player_move s sender slot choice battle_name
        match get_battle s1 battle_name with
        | none => s1
        | some battle1 =>
          let moves_left :=
            2 - (if battle1.getMove 0 = 0 then 1 else 0) -
              (if battle1.getMove 1 = 0 then 1 else 0)
          if moves_left = 0 then await_battle_results s1 sender battle_name rand1 rand2
          else s1
      else s
    else s

/-- `quit_battle` (Ava.rs lines 405-416): the opponent of the quitter is
passed to `end_battle` as the winner. -/
def quit_battle (s : GameState) (sender : Address) (battle_name : String) : GameState :=
  match get_battle s battle_name with
  | none => s
  | some battle =>
    if battle.players.1 = sender ∨ battle.players.2 = sender then
      let battle_loser :=
        if battle.players.1 = sender then battle.players.2 else battle.players.1
      end_battle s battle_loser battle
    else s

/-! ### Concrete states used to evaluate the operations

The source file contains no player-registration function (the spec's
`registerPlayer`, §4.3, which creates a player with mana 10, health 25 and
`inBattle = false`); the concrete states below therefore contain
already-registered players with those spec-given initial stats, together with
the reserved index-0 sentinel entries that `initialize` (Ava.rs lines
105-129) pushes. -/

/-- A registered `Player` record. -/
def mkPlayer (addr : Address) (name : String) (mana health : Nat) (inb : Bool) : Player :=
  { player_address := addr, player_name := name, player_mana := mana,
    player_health := health, in_battle := inb }

def demoTokenA : GameToken :=
  { name := "tA", id := 1, attack_strength := 6, defense_strength := 4 }

def demoTokenB : GameToken :=
  { name := "tB", id := 2, attack_strength := 4, defense_strength := 6 }

/-- A Started battle named "Z" between creator 1 (slot 0) and joiner 2
(slot 1), no move submitted yet. -/
def demoBattle : Battle :=
  { battle_status := .STARTED, name := "Z", players := (1, 2), moves := (0, 0), winner := 0 }

/-- Player 1 (attack 6 / defense 4) and player 2 (attack 4 / defense 6), both
with mana 10 and health 25, mid-battle in "Z". -/
def demoState : GameState :=
  { player_info := [(1, 1), (2, 2)],
    player_token_info := [(1, 1), (2, 2)],
    battle_info := [("Z", 1)],
    players := [sentinelPlayer, mkPlayer 1 "A" 10 25 true, mkPlayer 2 "B" 10 25 true],
    game_tokens := [sentinelToken, demoTokenA, demoTokenB],
    battles := [sentinelBattle, demoBattle],
    total_supply := 2,
    events := [] }

/-- Like `demoState` but player 1 has only 2 mana. -/
def lowManaState : GameState :=
  { demoState with
    players := [sentinelPlayer, mkPlayer 1 "A" 2 25 true, mkPlayer 2 "B" 10 25 true] }

/-- The "Z" battle with both moves submitted as Attack. -/
def roundBattle : Battle := { demoBattle with moves := (1, 1) }

/-- `demoState` at the moment both participants have chosen Attack. -/
def roundState : GameState := { demoState with battles := [sentinelBattle, roundBattle] }

/-- The "Z" battle with moves Attack (slot 0) / Defend (slot 1). -/
def adBattle : Battle := { demoBattle with moves := (1, 2) }

def adState : GameState := { demoState with battles := [sentinelBattle, adBattle] }

/-- The "Z" battle with moves Defend (slot 0) / Attack (slot 1). -/
def daBattle : Battle := { demoBattle with moves := (2, 1) }

def daState : GameState := { demoState with battles := [sentinelBattle, daBattle] }

def lethalTokenA : GameToken :=
  { name := "tA", id := 1, attack_strength := 9, defense_strength := 1 }

def lethalTokenB : GameToken :=
  { name := "tB", id := 2, attack_strength := 9, defense_strength := 1 }

/-- A late-round battle: both players are down to health 7 and mana 4 and
both have chosen Attack while holding attack-9 tokens, so the next resolution
produces a winner (9 ≥ 7). -/
def lateBattle : Battle :=
  { battle_status := .STARTED, name := "Z", players := (1, 2), moves := (1, 1), winner := 0 }

def lateState : GameState :=
  { player_info := [(1, 1), (2, 2)],
    player_token_info := [(1, 1), (2, 2)],
    battle_info := [("Z", 1)],
    players := [sentinelPlayer, mkPlayer 1 "A" 4 7 true, mkPlayer 2 "B" 4 7 true],
    game_tokens := [sentinelToken, lethalTokenA, lethalTokenB],
    battles := [sentinelBattle, lateBattle],
    total_supply := 2,
    events := [] }

/-- A battle state in which player 1 is down to mana 1 with both moves set to
Attack (the spec's submission semantics reaches such a state through a player
fighting two battles at once: `create_battle` never checks `in_battle`, so a
creator can be drained of mana by rounds of a second battle after submitting
an Attack in the first). -/
def drainedBattle : Battle :=
  { battle_status := .STARTED, name := "Z", players := (1, 2), moves := (1, 1), winner := 0 }

def smallTokenA : GameToken :=
  { name := "tA", id := 1, attack_strength := 1, defense_strength := 9 }

def smallTokenB : GameToken :=
  { name := "tB", id := 2, attack_strength := 1, defense_strength := 9 }

def drainedState : GameState :=
  { player_info := [(1, 1), (2, 2)],
    player_token_info := [(1, 1), (2, 2)],
    battle_info := [("Z", 1)],
    players := [sentinelPlayer, mkPlayer 1 "A" 1 22 true, mkPlayer 2 "B" 10 25 true],
    game_tokens := [sentinelToken, smallTokenA, smallTokenB],
    battles := [sentinelBattle, drainedBattle],
    total_supply := 2,
    events := [] }

/-- A defending token with defense 4, for the spec's Attack-vs-Defend
scenario (attack 9 against health 25 + defense 4). -/
def guardTokenB : GameToken :=
  { name := "tB", id := 2, attack_strength := 6, defense_strength := 4 }

/-- Attack 9 (player 1) against Defend with health 25, defense 4 (player 2). -/
def pierceState : GameState :=
  { demoState with
    game_tokens := [sentinelToken, lethalTokenA, guardTokenB],
    battles := [sentinelBattle, adBattle] }

/-! ### Record-update shorthands

Abbreviations for the player-record updates that `resolve_battle` and
`end_battle` perform, used to state the theorems below compactly. -/

/-- `p` after `player_health -= dmg` (wrapping, as in the source). -/
def healthCut (p : Player) (dmg : Nat) : Player :=
  { p with player_health := subU p.player_health dmg }

/-- `p` after `player_health = h`. -/
def healthSet (p : Player) (h : Nat) : Player :=
  { p with player_health := h }

/-- `p` after `player_mana -= c` (wrapping). -/
def manaCut (p : Player) (c : Nat) : Player :=
  { p with player_mana := subU p.player_mana c }

/-- `p` after `player_mana += c` (wrapping). -/
def manaBoost (p : Player) (c : Nat) : Player :=
  { p with player_mana := addU p.player_mana c }

/-- The end-of-battle reset `end_battle` applies to both participants. -/
def resetPlayer (p : Player) : Player :=
  { p with in_battle := false, player_health := 25, player_mana := 10 }

/-! ## Supporting lemmas -/

theorem get?_set_same {α} {l : List α} {i : Nat} {p : α} (a : α) (h : l.get? i = some p) :
    (l.set i a).get? i = some a := by
  rw [List.get?_set_eq, h]; rfl

theorem get?_set_other {α} {l : List α} {i j : Nat} (a : α) (h : i ≠ j) :
    (l.set i a).get? j = l.get? j :=
  List.get?_set_ne a l h

@[simp] theorem update_battle_player_info (s : GameState) (n : String) (b : Battle) :
    (update_battle s n b).player_info = s.player_info := by
  unfold update_battle; split <;> rfl

@[simp] theorem update_battle_player_token_info (s : GameState) (n : String) (b : Battle) :
    (update_battle s n b).player_token_info = s.player_token_info := by
  unfold update_battle; split <;> rfl

@[simp] theorem update_battle_battle_info (s : GameState) (n : String) (b : Battle) :
    (update_battle s n b).battle_info = s.battle_info := by
  unfold update_battle; split <;> rfl

@[simp] theorem update_battle_players (s : GameState) (n : String) (b : Battle) :
    (update_battle s n b).players = s.players := by
  unfold update_battle; split <;> rfl

@[simp] theorem update_battle_game_tokens (s : GameState) (n : String) (b : Battle) :
    (update_battle s n b).game_tokens = s.game_tokens := by
  unfold update_battle; split <;> rfl

@[simp] theorem update_battle_events (s : GameState) (n : String) (b : Battle) :
    (update_battle s n b).events = s.events := by
  unfold update_battle; split <;> rfl

@[simp] theorem modifyPlayerAt_player_info (s : GameState) (i : Nat) (f : Player → Player) :
    (modifyPlayerAt s i f).player_info = s.player_info := by
  unfold modifyPlayerAt; split <;> rfl

@[simp] theorem modifyPlayerAt_player_token_info (s : GameState) (i : Nat) (f : Player → Player) :
    (modifyPlayerAt s i f).player_token_info = s.player_token_info := by
  unfold modifyPlayerAt; split <;> rfl

@[simp] theorem modifyPlayerAt_battle_info (s : GameState) (i : Nat) (f : Player → Player) :
    (modifyPlayerAt s i f).battle_info = s.battle_info := by
  unfold modifyPlayerAt; split <;> rfl

@[simp] theorem modifyPlayerAt_battles (s : GameState) (i : Nat) (f : Player → Player) :
    (modifyPlayerAt s i f).battles = s.battles := by
  unfold modifyPlayerAt; split <;> rfl

@[simp] theorem modifyPlayerAt_game_tokens (s : GameState) (i : Nat) (f : Player → Player) :
    (modifyPlayerAt s i f).game_tokens = s.game_tokens := by
  unfold modifyPlayerAt; split <;> rfl

@[simp] theorem modifyPlayerAt_events (s : GameState) (i : Nat) (f : Player → Player) :
    (modifyPlayerAt s i f).events = s.events := by
  unfold modifyPlayerAt; split <;> rfl

@[simp] theorem modifyTokenAt_player_info (s : GameState) (i : Nat) (f : GameToken → GameToken) :
    (modifyTokenAt s i f).player_info = s.player_info := by
  unfold modifyTokenAt; split <;> rfl

@[simp] theorem modifyTokenAt_player_token_info (s : GameState) (i : Nat)
    (f : GameToken → GameToken) :
    (modifyTokenAt s i f).player_token_info = s.player_token_info := by
  unfold modifyTokenAt; split <;> rfl

@[simp] theorem modifyTokenAt_battle_info (s : GameState) (i : Nat) (f : GameToken → GameToken) :
    (modifyTokenAt s i f).battle_info = s.battle_info := by
  unfold modifyTokenAt; split <;> rfl

@[simp] theorem modifyTokenAt_battles (s : GameState) (i : Nat) (f : GameToken → GameToken) :
    (modifyTokenAt s i f).battles = s.battles := by
  unfold modifyTokenAt; split <;> rfl

@[simp] theorem modifyTokenAt_players (s : GameState) (i : Nat) (f : GameToken → GameToken) :
    (modifyTokenAt s i f).players = s.players := by
  unfold modifyTokenAt; split <;> rfl

@[simp] theorem modifyTokenAt_events (s : GameState) (i : Nat) (f : GameToken → GameToken) :
    (modifyTokenAt s i f).events = s.events := by
  unfold modifyTokenAt; split <;> rfl

theorem getPlayerD_of {s : GameState} {a : Address} {i : Nat} {p : Player}
    (h1 : alookup s.player_info a = some i) (h2 : s.players.get? i = some p) :
    getPlayerD s a = p := by
  unfold getPlayerD get_player
  rw [h1]
  show (s.players.get? i).getD sentinelPlayer = p
  rw [h2]
  rfl

theorem getPlayerTokenD_of {s : GameState} {a : Address} {i : Nat} {t : GameToken}
    (h1 : alookup s.player_token_info a = some i) (h2 : s.game_tokens.get? i = some t) :
    getPlayerTokenD s a = t := by
  unfold getPlayerTokenD get_player_token
  rw [h1]
  show (s.game_tokens.get? i).getD sentinelToken = t
  rw [h2]
  rfl

theorem get_battle_of {s : GameState} {n : String} {i : Nat} {b : Battle}
    (h1 : slookup s.battle_info n = some i) (h2 : s.battles.get? i = some b) :
    get_battle s n = some b := by
  unfold get_battle; rw [h1]; simpa using h2

theorem subU_of_le {a b : Nat} (hba : b ≤ a) (ha : a < U256) : subU a b = a - b := by
  unfold subU
  have h : a + U256 - b = (a - b) + U256 := by omega
  rw [h, Nat.add_mod_right, Nat.mod_eq_of_lt (by omega)]

theorem addU_of_lt {a b : Nat} (h : a + b < U256) : addU a b = a + b := by
  unfold addU
  exact Nat.mod_eq_of_lt h

/-! ## Claim theorems -/

/-- C1: In a Started battle "Z" between creator 1 (slot 0) and joiner 2
(slot 1), the creator's Attack submission is recorded in slot ONE of the moves
array — not slot 0 as the claim states — because the source computes the slot
as `(battle.players[0] == sender) as usize`, which is 1 for the creator; the
joiner's submission lands in slot 0; and the MoveAlreadySet rejection is keyed
on that same (flipped) slot: the creator's second submission is rejected while
slot 0 is still unset.  This refutes the claimed slot assignment and shows the
one the code implements. -/
theorem c1_creator_move_recorded_in_slot_one :
    (attack_or_defend_choice demoState 1 1 "Z" 1 1).battles =
      [sentinelBattle, { demoBattle with moves := (0, 1) }] ∧
    attack_or_defend_choice (attack_or_defend_choice demoState 1 1 "Z" 1 1) 1 1 "Z" 1 1 =
      attack_or_defend_choice demoState 1 1 "Z" 1 1 ∧
    (attack_or_defend_choice demoState 2 1 "Z" 1 1).battles =
      [sentinelBattle, { demoBattle with moves := (1, 0) }] := by
  decide

/-- C2: In the Started battle "Z" with both move slots unset, (i) submitting
choice 2 (Defend) changes nothing — the write in `register_player_move` is
gated by `choice == 1 && mana >= 3`, so a Defend is silently dropped, contrary
to the claim; (ii) an Attack with mana 2 is not recorded; (iii) an Attack with
mana 10 is recorded; and (iv) after both participants' Attacks are recorded
(both slots non-zero) NO resolution has run — the players are untouched —
because `moves_left = 2 - (moves[0]==0) - (moves[1]==0)` counts moves made,
not moves left, so the `moves_left == 0` resolution trigger never fires,
contrary to the claimed synchronous resolution. -/
theorem c2_defend_dropped_and_no_synchronous_resolution :
    attack_or_defend_choice demoState 1 2 "Z" 1 1 = demoState ∧
    attack_or_defend_choice lowManaState 1 1 "Z" 1 1 = lowManaState ∧
    (attack_or_defend_choice demoState 1 1 "Z" 1 1).battles =
      [sentinelBattle, { demoBattle with moves := (0, 1) }] ∧
    (attack_or_defend_choice (attack_or_defend_choice demoState 1 1 "Z" 1 1) 2 1 "Z" 1 1).battles =
      [sentinelBattle, { demoBattle with moves := (1, 1) }] ∧
    (attack_or_defend_choice (attack_or_defend_choice demoState 1 1 "Z" 1 1) 2 1 "Z" 1 1).players =
      demoState.players := by
  decide

/-- C3 counterexample: a round resolution that produces a winner (both chose
Attack, p1.attack 9 ≥ p2.health 7, so `end_battle` runs and records winner 1)
nevertheless DOES run the reset/re-roll path: the stored battle's moves are
reset from (1,1) to (0,0) and player 1's token attack strength is re-rolled
from 9 to 3 — refuting "the battle's move slots are not reset, neither
participant's token stats are re-rolled". -/
theorem c3_counterexample_reset_and_reroll_after_win :
    get_battle (resolve_battle lateState lateBattle 3 3) "Z" =
      some { battle_status := .ENDED, name := "Z", players := (1, 2), moves := (0, 0),
             winner := 1 } ∧
    (getPlayerTokenD lateState 1).attack_strength = 9 ∧
    (getPlayerTokenD (resolve_battle lateState lateBattle 3 3) 1).attack_strength = 3 ∧
    (getPlayerTokenD (resolve_battle lateState lateBattle 3 3) 2).attack_strength = 3 := by
  decide

/-- C4 counterexample: resolving the claimed scenario (p1 attack 6, p2 attack
4, both health 25 and mana 10, both moves Attack) gives p1 health 21 — each
player loses the OPPONENT's attack, so p1 (attack 6) loses 4 — not the
claimed 19; p2 ends at 19; manas are 7 and 7 and there is no winner. -/
theorem c4_counterexample_scenario_healths :
    (getPlayerD (resolve_battle roundState roundBattle 1 1) 1).player_health = 21 ∧
    ¬ (getPlayerD (resolve_battle roundState roundBattle 1 1) 1).player_health = 19 ∧
    (getPlayerD (resolve_battle roundState roundBattle 1 1) 2).player_health = 19 ∧
    (getPlayerD (resolve_battle roundState roundBattle 1 1) 1).player_mana = 7 ∧
    (getPlayerD (resolve_battle roundState roundBattle 1 1) 2).player_mana = 7 ∧
    (get_battle (resolve_battle roundState roundBattle 1 1) "Z").map Battle.winner = some 0 := by
  decide

/-- C6: resolving a round in which player 1 has mana 1 and both moves are
Attack (reachable under the spec's submission semantics by a player fighting
two battles at once, since `create_battle` never checks `in_battle`) WRAPS
player 1's mana to 2^256 − 2: the subtraction `player_mana -= 3` underflows
the unsigned integer instead of saturating at zero as the claim requires. -/
theorem c6_mana_subtraction_wraps_instead_of_saturating :
    (getPlayerD drainedState 1).player_mana = 1 ∧
    (getPlayerD (resolve_battle drainedState drainedBattle 1 1) 1).player_mana = 2 ^ 256 - 2 ∧
    ¬ (getPlayerD (resolve_battle drainedState drainedBattle 1 1) 1).player_mana = 0 := by
  decide

/-- C9 counterexample: a mint whose kind draw is 5 produces
`id = 5 % 6 + 1 = 6`, which is NOT one of the six declared kind constants
DEVIL=0 … CELESTION=5: the source's `% 6 + 1` yields the range 1..6, not
0..5. -/
theorem c9_counterexample_kind_id_six :
    (create_game_token demoState 1 "t" 1 5).1.id = 6 ∧
    ¬ ((create_game_token demoState 1 "t" 1 5).1.id = DEVIL ∨
       (create_game_token demoState 1 "t" 1 5).1.id = GRIFFIN ∨
       (create_game_token demoState 1 "t" 1 5).1.id = FIREBIRD ∨
       (create_game_token demoState 1 "t" 1 5).1.id = KAMO ∨
       (create_game_token demoState 1 "t" 1 5).1.id = KUKULKAN ∨
       (create_game_token demoState 1 "t" 1 5).1.id = CELESTION) := by
  decide

/-- C9 (amended): every minted token's kind id lies in the fixed inclusive
range 1..6 (the source computes `gen_range(0..100u8) % 6 + 1`). -/
theorem c9_kind_id_in_one_to_six (s : GameState) (sender : Address) (name : String)
    (randStat randKind : Nat) :
    1 ≤ (create_game_token s sender name randStat randKind).1.id ∧
    (create_game_token s sender name randStat randKind).1.id ≤ 6 := by
  have h : randKind % 6 < 6 := Nat.mod_lt _ (by norm_num)
  simp only [create_game_token]
  omega

@[simp] theorem end_battle_player_info (s : GameState) (w : Address) (b : Battle) :
    (end_battle s w b).player_info = s.player_info := by
  unfold end_battle; split <;> simp

@[simp] theorem end_battle_player_token_info (s : GameState) (w : Address) (b : Battle) :
    (end_battle s w b).player_token_info = s.player_token_info := by
  unfold end_battle; split <;> simp

@[simp] theorem end_battle_battle_info (s : GameState) (w : Address) (b : Battle) :
    (end_battle s w b).battle_info = s.battle_info := by
  unfold end_battle; split <;> simp

@[simp] theorem end_battle_game_tokens (s : GameState) (w : Address) (b : Battle) :
    (end_battle s w b).game_tokens = s.game_tokens := by
  unfold end_battle; split <;> simp

theorem update_battle_battles_of {s : GameState} {n : String} {bi : Nat} (nb : Battle)
    (hbi : slookup s.battle_info n = some bi) :
    (update_battle s n nb).battles = s.battles.set bi nb := by
  unfold update_battle; rw [hbi]

theorem end_battle_battles_of {s : GameState} {w : Address} {b : Battle} {bi : Nat}
    (hNE : b.battle_status ≠ BattleStatus.ENDED)
    (hbi : slookup s.battle_info b.name = some bi) :
    (end_battle s w b).battles =
      s.battles.set bi { b with battle_status := BattleStatus.ENDED, winner := w } := by
  unfold end_battle
  rw [if_pos hNE]
  simp only [modifyPlayerAt_battles, modifyPlayerAt_player_info, update_battle_player_info]
  exact update_battle_battles_of _ hbi

/-- The fully-explicit effect of `end_battle` on a non-Ended battle with
resolvable participant lookups. -/
theorem end_battle_eq {s : GameState} {w : Address} {b : Battle} {bi i1 i2 : Nat}
    {pl1 pl2 : Player}
    (hNE : b.battle_status ≠ BattleStatus.ENDED)
    (hbi : slookup s.battle_info b.name = some bi)
    (hp1 : alookup s.player_info b.players.1 = some i1)
    (hp2 : alookup s.player_info b.players.2 = some i2)
    (hne : i1 ≠ i2)
    (hg1 : s.players.get? i1 = some pl1)
    (hg2 : s.players.get? i2 = some pl2) :
    end_battle s w b =
      { s with
        battles := s.battles.set bi { b with battle_status := BattleStatus.ENDED, winner := w },
        players := (s.players.set i1
            { pl1 with in_battle := false, player_health := 25, player_mana := 10 }).set i2
            { pl2 with in_battle := false, player_health := 25, player_mana := 10 },
        events := s.events ++ [GameEvent.battleEnded b.name w
          (if w = b.players.1 then b.players.2 else b.players.1)] } := by
  have hg2' : (s.players.set i1
      { pl1 with in_battle := false, player_health := 25, player_mana := 10 }).get? i2 =
      some pl2 := by
    rw [get?_set_other _ hne]; exact hg2
  unfold end_battle
  rw [if_pos hNE]
  simp only [update_battle, hbi, modifyPlayerAt, hp1, hp2, hg1, hg2', Option.getD_some]

@[simp] theorem afterRound_player_info (sE : GameState) (b : Battle) (r1 r2 : Nat) :
    (afterRound sE b r1 r2).player_info = sE.player_info := by
  unfold afterRound; split <;> simp

@[simp] theorem afterRound_player_token_info (sE : GameState) (b : Battle) (r1 r2 : Nat) :
    (afterRound sE b r1 r2).player_token_info = sE.player_token_info := by
  unfold afterRound; split <;> simp

@[simp] theorem afterRound_battle_info (sE : GameState) (b : Battle) (r1 r2 : Nat) :
    (afterRound sE b r1 r2).battle_info = sE.battle_info := by
  unfold afterRound; split <;> simp

@[simp] theorem afterRound_players (sE : GameState) (b : Battle) (r1 r2 : Nat) :
    (afterRound sE b r1 r2).players = sE.players := by
  unfold afterRound; split <;> simp

@[simp] theorem afterRound_events (sE : GameState) (b : Battle) (r1 r2 : Nat) :
    (afterRound sE b r1 r2).events = sE.events := by
  unfold afterRound; split <;> simp

/-- After `afterRound`, the stored battle is the previously stored one with
both move slots reset to 0. -/
theorem afterRound_get_battle {sE : GameState} {b : Battle} {bi : Nat} {b2 : Battle}
    (r1 r2 : Nat)
    (hbi : slookup sE.battle_info b.name = some bi)
    (hbg : sE.battles.get? bi = some b2) :
    get_battle (afterRound sE b r1 r2) b.name = some { b2 with moves := (0, 0) } := by
  have hgb : get_battle sE b.name = some b2 := get_battle_of hbi hbg
  unfold afterRound
  rw [hgb]
  unfold get_battle
  simp only [modifyTokenAt_battle_info, modifyTokenAt_battles, update_battle_battle_info, hbi]
  rw [update_battle_battles_of _ hbi]
  simp only [Option.some_bind]
  rw [get?_set_same _ hbg]

/-- `afterRound` re-rolls both participants' tokens: each ends up with a
freshly drawn attack strength and the complementary defense strength. -/
theorem afterRound_tokens {sE : GameState} {b : Battle} {bi : Nat} {b2 : Battle}
    {ti1 ti2 : Nat} {t1 t2 : GameToken} (r1 r2 : Nat)
    (hbi : slookup sE.battle_info b.name = some bi)
    (hbg : sE.battles.get? bi = some b2)
    (ht1 : alookup sE.player_token_info b2.players.1 = some ti1)
    (ht2 : alookup sE.player_token_info b2.players.2 = some ti2)
    (htne : ti1 ≠ ti2)
    (htg1 : sE.game_tokens.get? ti1 = some t1)
    (htg2 : sE.game_tokens.get? ti2 = some t2) :
    (afterRound sE b r1 r2).game_tokens.get? ti1 = some
      { t1 with
        attack_strength := create_random_num MAX_ATTACK_DEFEND_STRENGTH b2.players.1 r1,
        defense_strength := subU MAX_ATTACK_DEFEND_STRENGTH
          (create_random_num MAX_ATTACK_DEFEND_STRENGTH b2.players.1 r1) } ∧
    (afterRound sE b r1 r2).game_tokens.get? ti2 = some
      { t2 with
        attack_strength := create_random_num MAX_ATTACK_DEFEND_STRENGTH b2.players.2 r2,
        defense_strength := subU MAX_ATTACK_DEFEND_STRENGTH
          (create_random_num MAX_ATTACK_DEFEND_STRENGTH b2.players.2 r2) } := by
  have hgb : get_battle sE b.name = some b2 := get_battle_of hbi hbg
  have htg2' : (sE.game_tokens.set ti1
      { t1 with
        attack_strength := create_random_num MAX_ATTACK_DEFEND_STRENGTH b2.players.1 r1,
        defense_strength := subU MAX_ATTACK_DEFEND_STRENGTH
          (create_random_num MAX_ATTACK_DEFEND_STRENGTH b2.players.1 r1) }).get? ti2 =
      some t2 := by
    rw [get?_set_other _ htne]; exact htg2
  unfold afterRound
  rw [hgb]
  simp only [modifyTokenAt, update_battle_player_token_info, update_battle_game_tokens,
    modifyTokenAt_player_token_info, ht1, Option.getD_some, htg1, htg2', ht2]
  constructor
  · rw [get?_set_other _ (Ne.symm htne), get?_set_same _ htg1]
  · rw [get?_set_same _ htg2']

/-- Once the stored battle is Ended, `attack_or_defend_choice` on it is a
no-op: its Started guard fails. -/
theorem no_moves_after_end {s' : GameState} {name : String} {bE : Battle}
    (h : get_battle s' name = some bE) (hE : bE.battle_status = BattleStatus.ENDED) :
    ∀ (sender : Address) (choice r1 r2 : Nat),
      attack_or_defend_choice s' sender choice name r1 r2 = s' := by
  intro sender choice r1 r2
  have hcon : ¬ (bE.battle_status = BattleStatus.STARTED ∧
      bE.battle_status ≠ BattleStatus.ENDED ∧
      (bE.players.1 = sender ∨ bE.players.2 = sender)) := by
    rw [hE]; simp
  unfold attack_or_defend_choice
  simp only [h]
  rw [if_neg hcon]

/-! In the branch lemmas below, `i1`/`pl1` (resp. `i2`/`pl2`) are the registry
index and record of the slot-0 (resp. slot-1) participant of `b`, and
`ti1`/`t1`, `ti2`/`t2` the indices and records of their tokens. -/

theorem resolve_branch_AA_win1 {s : GameState} {b : Battle} {i1 i2 : Nat}
    {pl1 pl2 : Player} {ti1 ti2 : Nat} {t1 t2 : GameToken}
    (hm : b.moves = (1, 1))
    (hp1 : alookup s.player_info b.players.1 = some i1)
    (hp2 : alookup s.player_info b.players.2 = some i2)
    (hg1 : s.players.get? i1 = some pl1)
    (hg2 : s.players.get? i2 = some pl2)
    (ht1 : alookup s.player_token_info b.players.1 = some ti1)
    (htg1 : s.game_tokens.get? ti1 = some t1)
    (ht2 : alookup s.player_token_info b.players.2 = some ti2)
    (htg2 : s.game_tokens.get? ti2 = some t2)
    (hwin : pl2.player_health ≤ t1.attack_strength) :
    resolve_branch s b = (end_battle s b.players.1 b, (0, 0)) := by
  unfold resolve_branch
  simp only [getPlayerD_of hp1 hg1, getPlayerD_of hp2 hg2,
    getPlayerTokenD_of ht1 htg1, getPlayerTokenD_of ht2 htg2,
    Battle.getMove, hm, hp1, hp2, Option.getD_some]
  norm_num
  intro hcon
  exact absurd hwin (not_le.mpr hcon)

theorem resolve_branch_AA_win2 {s : GameState} {b : Battle} {i1 i2 : Nat}
    {pl1 pl2 : Player} {ti1 ti2 : Nat} {t1 t2 : GameToken}
    (hm : b.moves = (1, 1))
    (hp1 : alookup s.player_info b.players.1 = some i1)
    (hp2 : alookup s.player_info b.players.2 = some i2)
    (hg1 : s.players.get? i1 = some pl1)
    (hg2 : s.players.get? i2 = some pl2)
    (ht1 : alookup s.player_token_info b.players.1 = some ti1)
    (htg1 : s.game_tokens.get? ti1 = some t1)
    (ht2 : alookup s.player_token_info b.players.2 = some ti2)
    (htg2 : s.game_tokens.get? ti2 = some t2)
    (hno1 : t1.attack_strength < pl2.player_health)
    (hwin : pl1.player_health ≤ t2.attack_strength) :
    resolve_branch s b = (end_battle s b.players.2 b, (0, 0)) := by
  unfold resolve_branch
  simp only [getPlayerD_of hp1 hg1, getPlayerD_of hp2 hg2,
    getPlayerTokenD_of ht1 htg1, getPlayerTokenD_of ht2 htg2,
    Battle.getMove, hm, hp1, hp2, Option.getD_some,
    if_neg (not_le.mpr hno1), if_pos hwin]
  norm_num

theorem resolve_branch_AA_else {s : GameState} {b : Battle} {i1 i2 : Nat}
    {pl1 pl2 : Player} {ti1 ti2 : Nat} {t1 t2 : GameToken}
    (hm : b.moves = (1, 1))
    (hp1 : alookup s.player_info b.players.1 = some i1)
    (hp2 : alookup s.player_info b.players.2 = some i2)
    (hne : i1 ≠ i2)
    (hg1 : s.players.get? i1 = some pl1)
    (hg2 : s.players.get? i2 = some pl2)
    (ht1 : alookup s.player_token_info b.players.1 = some ti1)
    (htg1 : s.game_tokens.get? ti1 = some t1)
    (ht2 : alookup s.player_token_info b.players.2 = some ti2)
    (htg2 : s.game_tokens.get? ti2 = some t2)
    (hno1 : t1.attack_strength < pl2.player_health)
    (hno2 : t2.attack_strength < pl1.player_health) :
    resolve_branch s b =
      ({ s with players := (((s.players.set i1 (healthCut pl1 t2.attack_strength)).set i2 (healthCut pl2 t1.attack_strength)).set i1 (manaCut (healthCut pl1 t2.attack_strength) 3)).set i2 (manaCut (healthCut pl2 t1.attack_strength) 3) },
        b.players) := by
  have hA : (s.players.set i1 (healthCut pl1 t2.attack_strength)).get? i2 = some pl2 := by
    rw [get?_set_other _ hne]; exact hg2
  have hB : ((s.players.set i1 (healthCut pl1 t2.attack_strength)).set i2 (healthCut pl2 t1.attack_strength)).get? i1 = some (healthCut pl1 t2.attack_strength) := by
    rw [get?_set_other _ (Ne.symm hne), get?_set_same _ hg1]
  have hC : (((s.players.set i1 (healthCut pl1 t2.attack_strength)).set i2 (healthCut pl2 t1.attack_strength)).set i1 (manaCut (healthCut pl1 t2.attack_strength) 3)).get? i2 = some (healthCut pl2 t1.attack_strength) := by
    rw [get?_set_other _ hne, get?_set_same _ hA]
  simp only [healthCut, manaCut] at hA hB hC
  unfold resolve_branch
  simp only [getPlayerD_of hp1 hg1, getPlayerD_of hp2 hg2,
    getPlayerTokenD_of ht1 htg1, getPlayerTokenD_of ht2 htg2,
    Battle.getMove, hm, hp1, hp2, Option.getD_some,
    if_neg (not_le.mpr hno1), if_neg (not_le.mpr hno2),
    modifyPlayerAt, hg1, hA, hB, hC, healthCut, manaCut]
  norm_num

theorem resolve_branch_AD_win {s : GameState} {b : Battle} {i1 i2 : Nat}
    {pl1 pl2 : Player} {ti1 ti2 : Nat} {t1 t2 : GameToken}
    (hm : b.moves = (1, 2))
    (hp1 : alookup s.player_info b.players.1 = some i1)
    (hp2 : alookup s.player_info b.players.2 = some i2)
    (hg1 : s.players.get? i1 = some pl1)
    (hg2 : s.players.get? i2 = some pl2)
    (ht1 : alookup s.player_token_info b.players.1 = some ti1)
    (htg1 : s.game_tokens.get? ti1 = some t1)
    (ht2 : alookup s.player_token_info b.players.2 = some ti2)
    (htg2 : s.game_tokens.get? ti2 = some t2)
    (hwin : addU pl2.player_health t2.defense_strength ≤ t1.attack_strength) :
    resolve_branch s b = (end_battle s b.players.1 b, (0, 0)) := by
  unfold resolve_branch
  simp only [getPlayerD_of hp1 hg1, getPlayerD_of hp2 hg2,
    getPlayerTokenD_of ht1 htg1, getPlayerTokenD_of ht2 htg2,
    Battle.getMove, hm, hp1, hp2, Option.getD_some, if_pos hwin]
  norm_num

theorem resolve_branch_AD_absorb {s : GameState} {b : Battle} {i1 i2 : Nat}
    {pl1 pl2 : Player} {ti1 ti2 : Nat} {t1 t2 : GameToken}
    (hm : b.moves = (1, 2))
    (hp1 : alookup s.player_info b.players.1 = some i1)
    (hp2 : alookup s.player_info b.players.2 = some i2)
    (hne : i1 ≠ i2)
    (hg1 : s.players.get? i1 = some pl1)
    (hg2 : s.players.get? i2 = some pl2)
    (ht1 : alookup s.player_token_info b.players.1 = some ti1)
    (htg1 : s.game_tokens.get? ti1 = some t1)
    (ht2 : alookup s.player_token_info b.players.2 = some ti2)
    (htg2 : s.game_tokens.get? ti2 = some t2)
    (hno : t1.attack_strength < addU pl2.player_health t2.defense_strength)
    (habs : t1.attack_strength < t2.defense_strength) :
    resolve_branch s b =
      ({ s with players := ((s.players.set i2 (healthSet pl2 pl2.player_health)).set i1 (manaCut pl1 3)).set i2 (manaBoost (healthSet pl2 pl2.player_health) 3) },
        ((0 : Address), (0 : Address))) := by
  have hA : (s.players.set i2 (healthSet pl2 pl2.player_health)).get? i1 = some pl1 := by
    rw [get?_set_other _ (Ne.symm hne)]; exact hg1
  have hB : ((s.players.set i2 (healthSet pl2 pl2.player_health)).set i1 (manaCut pl1 3)).get? i2 = some (healthSet pl2 pl2.player_health) := by
    rw [get?_set_other _ hne, get?_set_same _ hg2]
  simp only [healthSet, manaCut] at hA hB
  unfold resolve_branch
  simp only [getPlayerD_of hp1 hg1, getPlayerD_of hp2 hg2,
    getPlayerTokenD_of ht1 htg1, getPlayerTokenD_of ht2 htg2,
    Battle.getMove, hm, hp1, hp2, Option.getD_some,
    if_neg (not_le.mpr hno), if_pos habs,
    modifyPlayerAt, hg2, hA, hB, healthSet, manaCut, manaBoost]
  norm_num

theorem resolve_branch_AD_pierce {s : GameState} {b : Battle} {i1 i2 : Nat}
    {pl1 pl2 : Player} {ti1 ti2 : Nat} {t1 t2 : GameToken}
    (hm : b.moves = (1, 2))
    (hp1 : alookup s.player_info b.players.1 = some i1)
    (hp2 : alookup s.player_info b.players.2 = some i2)
    (hne : i1 ≠ i2)
    (hg1 : s.players.get? i1 = some pl1)
    (hg2 : s.players.get? i2 = some pl2)
    (ht1 : alookup s.player_token_info b.players.1 = some ti1)
    (htg1 : s.game_tokens.get? ti1 = some t1)
    (ht2 : alookup s.player_token_info b.players.2 = some ti2)
    (htg2 : s.game_tokens.get? ti2 = some t2)
    (hno : t1.attack_strength < addU pl2.player_health t2.defense_strength)
    (hpie : t2.defense_strength ≤ t1.attack_strength) :
    resolve_branch s b =
      ({ s with players := ((s.players.set i2 (healthSet pl2 (subU (addU pl2.player_health t2.defense_strength) t1.attack_strength))).set i1 (manaCut pl1 3)).set i2 (manaBoost (healthSet pl2 (subU (addU pl2.player_health t2.defense_strength) t1.attack_strength)) 3) },
        (b.players.2, (0 : Address))) := by
  have hA : (s.players.set i2 (healthSet pl2 (subU (addU pl2.player_health t2.defense_strength) t1.attack_strength))).get? i1 = some pl1 := by
    rw [get?_set_other _ (Ne.symm hne)]; exact hg1
  have hB : ((s.players.set i2 (healthSet pl2 (subU (addU pl2.player_health t2.defense_strength) t1.attack_strength))).set i1 (manaCut pl1 3)).get? i2 = some (healthSet pl2 (subU (addU pl2.player_health t2.defense_strength) t1.attack_strength)) := by
    rw [get?_set_other _ hne, get?_set_same _ hg2]
  simp only [healthSet, manaCut] at hA hB
  unfold resolve_branch
  simp only [getPlayerD_of hp1 hg1, getPlayerD_of hp2 hg2,
    getPlayerTokenD_of ht1 htg1, getPlayerTokenD_of ht2 htg2,
    Battle.getMove, hm, hp1, hp2, Option.getD_some,
    if_neg (not_le.mpr hno), if_neg (not_lt.mpr hpie),
    modifyPlayerAt, hg2, hA, hB, healthSet, manaCut, manaBoost]
  norm_num

theorem resolve_branch_DA_win {s : GameState} {b : Battle} {i1 i2 : Nat}
    {pl1 pl2 : Player} {ti1 ti2 : Nat} {t1 t2 : GameToken}
    (hm : b.moves = (2, 1))
    (hp1 : alookup s.player_info b.players.1 = some i1)
    (hp2 : alookup s.player_info b.players.2 = some i2)
    (hg1 : s.players.get? i1 = some pl1)
    (hg2 : s.players.get? i2 = some pl2)
    (ht1 : alookup s.player_token_info b.players.1 = some ti1)
    (htg1 : s.game_tokens.get? ti1 = some t1)
    (ht2 : alookup s.player_token_info b.players.2 = some ti2)
    (htg2 : s.game_tokens.get? ti2 = some t2)
    (hwin : addU pl1.player_health t1.defense_strength ≤ t2.attack_strength) :
    resolve_branch s b = (end_battle s b.players.2 b, (0, 0)) := by
  unfold resolve_branch
  simp only [getPlayerD_of hp1 hg1, getPlayerD_of hp2 hg2,
    getPlayerTokenD_of ht1 htg1, getPlayerTokenD_of ht2 htg2,
    Battle.getMove, hm, hp1, hp2, Option.getD_some, if_pos hwin]
  norm_num

theorem resolve_branch_DA_absorb {s : GameState} {b : Battle} {i1 i2 : Nat}
    {pl1 pl2 : Player} {ti1 ti2 : Nat} {t1 t2 : GameToken}
    (hm : b.moves = (2, 1))
    (hp1 : alookup s.player_info b.players.1 = some i1)
    (hp2 : alookup s.player_info b.players.2 = some i2)
    (hne : i1 ≠ i2)
    (hg1 : s.players.get? i1 = some pl1)
    (hg2 : s.players.get? i2 = some pl2)
    (ht1 : alookup s.player_token_info b.players.1 = some ti1)
    (htg1 : s.game_tokens.get? ti1 = some t1)
    (ht2 : alookup s.player_token_info b.players.2 = some ti2)
    (htg2 : s.game_tokens.get? ti2 = some t2)
    (hno : t2.attack_strength < addU pl1.player_health t1.defense_strength)
    (habs : t2.attack_strength < t1.defense_strength) :
    resolve_branch s b =
      ({ s with players := ((s.players.set i1 (healthSet pl1 pl1.player_health)).set i1 (manaBoost (healthSet pl1 pl1.player_health) 3)).set i2 (manaCut pl2 3) },
        ((0 : Address), (0 : Address))) := by
  have hA : (s.players.set i1 (healthSet pl1 pl1.player_health)).get? i1 = some (healthSet pl1 pl1.player_health) :=
    get?_set_same _ hg1
  have hB : ((s.players.set i1 (healthSet pl1 pl1.player_health)).set i1 (manaBoost (healthSet pl1 pl1.player_health) 3)).get? i2 = some pl2 := by
    rw [get?_set_other _ hne, get?_set_other _ hne]; exact hg2
  simp only [healthSet, manaBoost] at hA hB
  unfold resolve_branch
  simp only [getPlayerD_of hp1 hg1, getPlayerD_of hp2 hg2,
    getPlayerTokenD_of ht1 htg1, getPlayerTokenD_of ht2 htg2,
    Battle.getMove, hm, hp1, hp2, Option.getD_some,
    if_neg (not_le.mpr hno), if_pos habs,
    modifyPlayerAt, hg1, hA, hB, healthSet, manaCut, manaBoost]
  norm_num

theorem resolve_branch_DA_pierce {s : GameState} {b : Battle} {i1 i2 : Nat}
    {pl1 pl2 : Player} {ti1 ti2 : Nat} {t1 t2 : GameToken}
    (hm : b.moves = (2, 1))
    (hp1 : alookup s.player_info b.players.1 = some i1)
    (hp2 : alookup s.player_info b.players.2 = some i2)
    (hne : i1 ≠ i2)
    (hg1 : s.players.get? i1 = some pl1)
    (hg2 : s.players.get? i2 = some pl2)
    (ht1 : alookup s.player_token_info b.players.1 = some ti1)
    (htg1 : s.game_tokens.get? ti1 = some t1)
    (ht2 : alookup s.player_token_info b.players.2 = some ti2)
    (htg2 : s.game_tokens.get? ti2 = some t2)
    (hno : t2.attack_strength < addU pl1.player_health t1.defense_strength)
    (hpie : t1.defense_strength ≤ t2.attack_strength) :
    resolve_branch s b =
      ({ s with players := ((s.players.set i1 (healthSet pl1 (subU (addU pl1.player_health t1.defense_strength) t2.attack_strength))).set i1 (manaBoost (healthSet pl1 (subU (addU pl1.player_health t1.defense_strength) t2.attack_strength)) 3)).set i2 (manaCut pl2 3) },
        (b.players.1, (0 : Address))) := by
  have hA : (s.players.set i1 (healthSet pl1 (subU (addU pl1.player_health t1.defense_strength) t2.attack_strength))).get? i1 = some (healthSet pl1 (subU (addU pl1.player_health t1.defense_strength) t2.attack_strength)) :=
    get?_set_same _ hg1
  have hB : ((s.players.set i1 (healthSet pl1 (subU (addU pl1.player_health t1.defense_strength) t2.attack_strength))).set i1 (manaBoost (healthSet pl1 (subU (addU pl1.player_health t1.defense_strength) t2.attack_strength)) 3)).get? i2 = some pl2 := by
    rw [get?_set_other _ hne, get?_set_other _ hne]; exact hg2
  simp only [healthSet, manaBoost] at hA hB
  unfold resolve_branch
  simp only [getPlayerD_of hp1 hg1, getPlayerD_of hp2 hg2,
    getPlayerTokenD_of ht1 htg1, getPlayerTokenD_of ht2 htg2,
    Battle.getMove, hm, hp1, hp2, Option.getD_some,
    if_neg (not_le.mpr hno), if_neg (not_lt.mpr hpie),
    modifyPlayerAt, hg1, hA, hB, healthSet, manaCut, manaBoost]
  norm_num

/-- C4 (amended): when both participants chose Attack, if p1.attack ≥
p2.health then p1 wins and the battle ends; else if p2.attack ≥ p1.health
then p2 wins; otherwise each player's health decreases by the OPPONENT's
attack value and each player's mana decreases by 3 — so with attacks 6 and 4,
health 25/25 and mana 10/10 the result is health 21 for p1 and 19 for p2
(not 19 and 21), mana 7 and 7, and no winner. -/
theorem c4_attack_attack_resolution (s : GameState) (b : Battle) (r1 r2 : Nat)
    (bi i1 i2 : Nat) (pl1 pl2 : Player) (ti1 ti2 : Nat) (t1 t2 : GameToken)
    (hst : b.battle_status = BattleStatus.STARTED)
    (hm : b.moves = (1, 1))
    (hbi : slookup s.battle_info b.name = some bi)
    (hbg : s.battles.get? bi = some b)
    (hp1 : alookup s.player_info b.players.1 = some i1)
    (hp2 : alookup s.player_info b.players.2 = some i2)
    (hne : i1 ≠ i2)
    (hg1 : s.players.get? i1 = some pl1)
    (hg2 : s.players.get? i2 = some pl2)
    (ht1 : alookup s.player_token_info b.players.1 = some ti1)
    (htg1 : s.game_tokens.get? ti1 = some t1)
    (ht2 : alookup s.player_token_info b.players.2 = some ti2)
    (htg2 : s.game_tokens.get? ti2 = some t2)
    (hh1 : pl1.player_health < U256) (hh2 : pl2.player_health < U256)
    (hmana1 : 3 ≤ pl1.player_mana) (hmana1b : pl1.player_mana < U256)
    (hmana2 : 3 ≤ pl2.player_mana) (hmana2b : pl2.player_mana < U256) :
    (pl2.player_health ≤ t1.attack_strength →
      get_battle (resolve_battle s b r1 r2) b.name =
        some { b with battle_status := BattleStatus.ENDED, winner := b.players.1, moves := (0, 0) }) ∧
    (t1.attack_strength < pl2.player_health → pl1.player_health ≤ t2.attack_strength →
      get_battle (resolve_battle s b r1 r2) b.name =
        some { b with battle_status := BattleStatus.ENDED, winner := b.players.2, moves := (0, 0) }) ∧
    (t1.attack_strength < pl2.player_health → t2.attack_strength < pl1.player_health →
      (resolve_battle s b r1 r2).players.get? i1 =
        some { pl1 with player_health := pl1.player_health - t2.attack_strength, player_mana := pl1.player_mana - 3 } ∧
      (resolve_battle s b r1 r2).players.get? i2 =
        some { pl2 with player_health := pl2.player_health - t1.attack_strength, player_mana := pl2.player_mana - 3 } ∧
      get_battle (resolve_battle s b r1 r2) b.name = some { b with moves := (0, 0) }) := by
  have hNE : b.battle_status ≠ BattleStatus.ENDED := by rw [hst]; simp
  refine ⟨?_, ?_, ?_⟩
  · intro hwin
    have hres : resolve_battle s b r1 r2 = afterRound (end_battle s b.players.1 b) b r1 r2 := by
      unfold resolve_battle resolve_battle_full
      rw [resolve_branch_AA_win1 hm hp1 hp2 hg1 hg2 ht1 htg1 ht2 htg2 hwin]
    have hbiE : slookup (end_battle s b.players.1 b).battle_info b.name = some bi := by
      rw [end_battle_battle_info]; exact hbi
    have hbgE : (end_battle s b.players.1 b).battles.get? bi =
        some { b with battle_status := BattleStatus.ENDED, winner := b.players.1 } := by
      rw [end_battle_battles_of hNE hbi]; exact get?_set_same _ hbg
    rw [hres, afterRound_get_battle r1 r2 hbiE hbgE]
  · intro hno1 hwin
    have hres : resolve_battle s b r1 r2 = afterRound (end_battle s b.players.2 b) b r1 r2 := by
      unfold resolve_battle resolve_battle_full
      rw [resolve_branch_AA_win2 hm hp1 hp2 hg1 hg2 ht1 htg1 ht2 htg2 hno1 hwin]
    have hbiE : slookup (end_battle s b.players.2 b).battle_info b.name = some bi := by
      rw [end_battle_battle_info]; exact hbi
    have hbgE : (end_battle s b.players.2 b).battles.get? bi =
        some { b with battle_status := BattleStatus.ENDED, winner := b.players.2 } := by
      rw [end_battle_battles_of hNE hbi]; exact get?_set_same _ hbg
    rw [hres, afterRound_get_battle r1 r2 hbiE hbgE]
  · intro hno1 hno2
    have hbr := resolve_branch_AA_else hm hp1 hp2 hne hg1 hg2 ht1 htg1 ht2 htg2 hno1 hno2
    have hres : resolve_battle s b r1 r2 =
        afterRound ({ s with players := (((s.players.set i1 (healthCut pl1 t2.attack_strength)).set i2 (healthCut pl2 t1.attack_strength)).set i1 (manaCut (healthCut pl1 t2.attack_strength) 3)).set i2 (manaCut (healthCut pl2 t1.attack_strength) 3) }) b r1 r2 := by
      unfold resolve_battle resolve_battle_full
      rw [hbr]
    have hBase : (s.players.set i1 (healthCut pl1 t2.attack_strength)).get? i1 =
        some (healthCut pl1 t2.attack_strength) := get?_set_same _ hg1
    have hBase2 : ((s.players.set i1 (healthCut pl1 t2.attack_strength)).set i2 (healthCut pl2 t1.attack_strength)).get? i1 = some (healthCut pl1 t2.attack_strength) := by
      rw [get?_set_other _ (Ne.symm hne)]; exact hBase
    have hi1 : ((((s.players.set i1 (healthCut pl1 t2.attack_strength)).set i2 (healthCut pl2 t1.attack_strength)).set i1 (manaCut (healthCut pl1 t2.attack_strength) 3)).set i2 (manaCut (healthCut pl2 t1.attack_strength) 3)).get? i1 = some (manaCut (healthCut pl1 t2.attack_strength) 3) := by
      rw [get?_set_other _ (Ne.symm hne)]
      exact get?_set_same _ hBase2
    have hA : (s.players.set i1 (healthCut pl1 t2.attack_strength)).get? i2 = some pl2 := by
      rw [get?_set_other _ hne]; exact hg2
    have hA2 : ((s.players.set i1 (healthCut pl1 t2.attack_strength)).set i2 (healthCut pl2 t1.attack_strength)).get? i2 = some (healthCut pl2 t1.attack_strength) :=
      get?_set_same _ hA
    have hA3 : (((s.players.set i1 (healthCut pl1 t2.attack_strength)).set i2 (healthCut pl2 t1.attack_strength)).set i1 (manaCut (healthCut pl1 t2.attack_strength) 3)).get? i2 = some (healthCut pl2 t1.attack_strength) := by
      rw [get?_set_other _ hne]; exact hA2
    have hi2 : ((((s.players.set i1 (healthCut pl1 t2.attack_strength)).set i2 (healthCut pl2 t1.attack_strength)).set i1 (manaCut (healthCut pl1 t2.attack_strength) 3)).set i2 (manaCut (healthCut pl2 t1.attack_strength) 3)).get? i2 = some (manaCut (healthCut pl2 t1.attack_strength) 3) :=
      get?_set_same _ hA3
    refine ⟨?_, ?_, ?_⟩
    · rw [hres]
      rw [afterRound_players]
      show ((((s.players.set i1 (healthCut pl1 t2.attack_strength)).set i2 (healthCut pl2 t1.attack_strength)).set i1 (manaCut (healthCut pl1 t2.attack_strength) 3)).set i2 (manaCut (healthCut pl2 t1.attack_strength) 3)).get? i1 = _
      rw [hi1]
      unfold manaCut healthCut
      rw [subU_of_le (le_of_lt hno2) hh1, subU_of_le hmana1 hmana1b]
    · rw [hres]
      rw [afterRound_players]
      show ((((s.players.set i1 (healthCut pl1 t2.attack_strength)).set i2 (healthCut pl2 t1.attack_strength)).set i1 (manaCut (healthCut pl1 t2.attack_strength) 3)).set i2 (manaCut (healthCut pl2 t1.attack_strength) 3)).get? i2 = _
      rw [hi2]
      unfold manaCut healthCut
      rw [subU_of_le (le_of_lt hno1) hh2, subU_of_le hmana2 hmana2b]
    · rw [hres]
      exact afterRound_get_battle r1 r2 hbi hbg

/-- Witness for C4: the (corrected) scenario — attacks 6 and 4, both health 25
and mana 10 — resolves to p1 health 21, p2 health 19, both manas 7, moves
reset, no winner. -/
theorem c4_attack_attack_resolution_witness :
    (resolve_battle roundState roundBattle 1 1).players.get? 1 =
      some { mkPlayer 1 "A" 10 25 true with player_health := 25 - 4, player_mana := 10 - 3 } ∧
    (resolve_battle roundState roundBattle 1 1).players.get? 2 =
      some { mkPlayer 2 "B" 10 25 true with player_health := 25 - 6, player_mana := 10 - 3 } ∧
    get_battle (resolve_battle roundState roundBattle 1 1) "Z" =
      some { roundBattle with moves := (0, 0) } :=
  (c4_attack_attack_resolution roundState roundBattle 1 1 1 1 2
    (mkPlayer 1 "A" 10 25 true) (mkPlayer 2 "B" 10 25 true) 1 2 demoTokenA demoTokenB
    (by decide) (by decide) (by decide) (by decide) (by decide) (by decide) (by decide)
    (by decide) (by decide) (by decide) (by decide) (by decide) (by decide) (by decide)
    (by decide) (by decide) (by decide) (by decide) (by decide)).2.2 (by decide) (by decide)

/-- C5: Attack-vs-Defend resolution.  With guard = p2.health + p2.defense:
if p1.attack ≥ guard, p1 wins and the battle ends; otherwise when
p2.defense > p1.attack, p2's health is unchanged and nobody is marked
damaged, when p2.defense ≤ p1.attack, p2's health becomes guard − p1.attack
and p2 is marked the damaged party; in the non-winning cases p1's mana
decreases by 3 and p2's mana increases by 3.  The Defend/Attack case is
symmetric with the roles swapped. -/
theorem c5_attack_defend_resolution (s : GameState) (b : Battle) (r1 r2 : Nat)
    (bi i1 i2 : Nat) (pl1 pl2 : Player) (ti1 ti2 : Nat) (t1 t2 : GameToken)
    (hst : b.battle_status = BattleStatus.STARTED)
    (hbi : slookup s.battle_info b.name = some bi)
    (hbg : s.battles.get? bi = some b)
    (hp1 : alookup s.player_info b.players.1 = some i1)
    (hp2 : alookup s.player_info b.players.2 = some i2)
    (hne : i1 ≠ i2)
    (hg1 : s.players.get? i1 = some pl1)
    (hg2 : s.players.get? i2 = some pl2)
    (ht1 : alookup s.player_token_info b.players.1 = some ti1)
    (htg1 : s.game_tokens.get? ti1 = some t1)
    (ht2 : alookup s.player_token_info b.players.2 = some ti2)
    (htg2 : s.game_tokens.get? ti2 = some t2)
    (hguard2 : pl2.player_health + t2.defense_strength < U256)
    (hguard1 : pl1.player_health + t1.defense_strength < U256)
    (hmana1 : 3 ≤ pl1.player_mana) (hmana1b : pl1.player_mana < U256)
    (hmana1c : pl1.player_mana + 3 < U256)
    (hmana2 : 3 ≤ pl2.player_mana) (hmana2b : pl2.player_mana < U256)
    (hmana2c : pl2.player_mana + 3 < U256) :
    (b.moves = (1, 2) →
      (pl2.player_health + t2.defense_strength ≤ t1.attack_strength →
        get_battle (resolve_battle s b r1 r2) b.name =
          some { b with battle_status := BattleStatus.ENDED, winner := b.players.1, moves := (0, 0) }) ∧
      (t1.attack_strength < pl2.player_health + t2.defense_strength →
        (t1.attack_strength < t2.defense_strength →
          (resolve_battle s b r1 r2).players.get? i2 =
            some { pl2 with player_mana := pl2.player_mana + 3 } ∧
          (resolve_battle_full s b r1 r2).2 = (0, 0)) ∧
        (t2.defense_strength ≤ t1.attack_strength →
          (resolve_battle s b r1 r2).players.get? i2 =
            some { pl2 with player_health := pl2.player_health + t2.defense_strength - t1.attack_strength, player_mana := pl2.player_mana + 3 } ∧
          (resolve_battle_full s b r1 r2).2 = (b.players.2, 0)) ∧
        (resolve_battle s b r1 r2).players.get? i1 =
          some { pl1 with player_mana := pl1.player_mana - 3 })) ∧
    (b.moves = (2, 1) →
      (pl1.player_health + t1.defense_strength ≤ t2.attack_strength →
        get_battle (resolve_battle s b r1 r2) b.name =
          some { b with battle_status := BattleStatus.ENDED, winner := b.players.2, moves := (0, 0) }) ∧
      (t2.attack_strength < pl1.player_health + t1.defense_strength →
        (t2.attack_strength < t1.defense_strength →
          (resolve_battle s b r1 r2).players.get? i1 =
            some { pl1 with player_mana := pl1.player_mana + 3 } ∧
          (resolve_battle_full s b r1 r2).2 = (0, 0)) ∧
        (t1.defense_strength ≤ t2.attack_strength →
          (resolve_battle s b r1 r2).players.get? i1 =
            some { pl1 with player_health := pl1.player_health + t1.defense_strength - t2.attack_strength, player_mana := pl1.player_mana + 3 } ∧
          (resolve_battle_full s b r1 r2).2 = (b.players.1, 0)) ∧
        (resolve_battle s b r1 r2).players.get? i2 =
          some { pl2 with player_mana := pl2.player_mana - 3 })) := by
  have hNE : b.battle_status ≠ BattleStatus.ENDED := by rw [hst]; simp
  have haddU2 : addU pl2.player_health t2.defense_strength =
      pl2.player_health + t2.defense_strength := addU_of_lt hguard2
  have haddU1 : addU pl1.player_health t1.defense_strength =
      pl1.player_health + t1.defense_strength := addU_of_lt hguard1
  constructor
  · intro hm
    constructor
    · intro hwin
      rw [← haddU2] at hwin
      have hres : resolve_battle s b r1 r2 = afterRound (end_battle s b.players.1 b) b r1 r2 := by
        unfold resolve_battle resolve_battle_full
        rw [resolve_branch_AD_win hm hp1 hp2 hg1 hg2 ht1 htg1 ht2 htg2 hwin]
      have hbiE : slookup (end_battle s b.players.1 b).battle_info b.name = some bi := by
        rw [end_battle_battle_info]; exact hbi
      have hbgE : (end_battle s b.players.1 b).battles.get? bi =
          some { b with battle_status := BattleStatus.ENDED, winner := b.players.1 } := by
        rw [end_battle_battles_of hNE hbi]; exact get?_set_same _ hbg
      rw [hres, afterRound_get_battle r1 r2 hbiE hbgE]
    · intro hno
      rw [← haddU2] at hno
      refine ⟨?_, ?_, ?_⟩
      · intro habs
        have hbr := resolve_branch_AD_absorb hm hp1 hp2 hne hg1 hg2 ht1 htg1 ht2 htg2 hno habs
        have hres : resolve_battle s b r1 r2 =
            afterRound ({ s with players := ((s.players.set i2 (healthSet pl2 pl2.player_health)).set i1 (manaCut pl1 3)).set i2 (manaBoost (healthSet pl2 pl2.player_health) 3) }) b r1 r2 := by
          unfold resolve_battle resolve_battle_full
          rw [hbr]
        have hdam : (resolve_battle_full s b r1 r2).2 = ((0 : Address), (0 : Address)) := by
          unfold resolve_battle_full
          rw [hbr]
        have hA : (s.players.set i2 (healthSet pl2 pl2.player_health)).get? i2 =
            some (healthSet pl2 pl2.player_health) := get?_set_same _ hg2
        have hB : ((s.players.set i2 (healthSet pl2 pl2.player_health)).set i1 (manaCut pl1 3)).get? i2 = some (healthSet pl2 pl2.player_health) := by
          rw [get?_set_other _ hne]; exact hA
        constructor
        · rw [hres, afterRound_players]
          show (((s.players.set i2 (healthSet pl2 pl2.player_health)).set i1 (manaCut pl1 3)).set i2 (manaBoost (healthSet pl2 pl2.player_health) 3)).get? i2 = _
          rw [get?_set_same _ hB]
          unfold manaBoost healthSet
          rw [addU_of_lt hmana2c]
        · exact hdam
      · intro hpie
        have hbr := resolve_branch_AD_pierce hm hp1 hp2 hne hg1 hg2 ht1 htg1 ht2 htg2 hno hpie
        have hres : resolve_battle s b r1 r2 =
            afterRound ({ s with players := ((s.players.set i2 (healthSet pl2 (subU (addU pl2.player_health t2.defense_strength) t1.attack_strength))).set i1 (manaCut pl1 3)).set i2 (manaBoost (healthSet pl2 (subU (addU pl2.player_health t2.defense_strength) t1.attack_strength)) 3) }) b r1 r2 := by
          unfold resolve_battle resolve_battle_full
          rw [hbr]
        have hdam : (resolve_battle_full s b r1 r2).2 = (b.players.2, (0 : Address)) := by
          unfold resolve_battle_full
          rw [hbr]
        have hA : (s.players.set i2 (healthSet pl2 (subU (addU pl2.player_health t2.defense_strength) t1.attack_strength))).get? i2 = some (healthSet pl2 (subU (addU pl2.player_health t2.defense_strength) t1.attack_strength)) := get?_set_same _ hg2
        have hB : ((s.players.set i2 (healthSet pl2 (subU (addU pl2.player_health t2.defense_strength) t1.attack_strength))).set i1 (manaCut pl1 3)).get? i2 = some (healthSet pl2 (subU (addU pl2.player_health t2.defense_strength) t1.attack_strength)) := by
          rw [get?_set_other _ hne]; exact hA
        constructor
        · rw [hres, afterRound_players]
          show (((s.players.set i2 (healthSet pl2 (subU (addU pl2.player_health t2.defense_strength) t1.attack_strength))).set i1 (manaCut pl1 3)).set i2 (manaBoost (healthSet pl2 (subU (addU pl2.player_health t2.defense_strength) t1.attack_strength)) 3)).get? i2 = _
          rw [get?_set_same _ hB]
          unfold manaBoost healthSet
          rw [addU_of_lt hmana2c, haddU2,
            subU_of_le (by omega) (by omega)]
        · exact hdam
      · -- p1 loses 3 mana in both non-winning sub-cases
        by_cases habs : t1.attack_strength < t2.defense_strength
        · have hbr := resolve_branch_AD_absorb hm hp1 hp2 hne hg1 hg2 ht1 htg1 ht2 htg2 hno habs
          have hres : resolve_battle s b r1 r2 =
              afterRound ({ s with players := ((s.players.set i2 (healthSet pl2 pl2.player_health)).set i1 (manaCut pl1 3)).set i2 (manaBoost (healthSet pl2 pl2.player_health) 3) }) b r1 r2 := by
            unfold resolve_battle resolve_battle_full
            rw [hbr]
          have hA : (s.players.set i2 (healthSet pl2 pl2.player_health)).get? i1 = some pl1 := by
            rw [get?_set_other _ (Ne.symm hne)]; exact hg1
          have hB : ((s.players.set i2 (healthSet pl2 pl2.player_health)).set i1 (manaCut pl1 3)).get? i1 = some (manaCut pl1 3) := get?_set_same _ hA
          rw [hres, afterRound_players]
          show (((s.players.set i2 (healthSet pl2 pl2.player_health)).set i1 (manaCut pl1 3)).set i2 (manaBoost (healthSet pl2 pl2.player_health) 3)).get? i1 = _
          rw [get?_set_other _ (Ne.symm hne), hB]
          unfold manaCut
          rw [subU_of_le hmana1 hmana1b]
        · have hpie := not_lt.mp habs
          have hbr := resolve_branch_AD_pierce hm hp1 hp2 hne hg1 hg2 ht1 htg1 ht2 htg2 hno hpie
          have hres : resolve_battle s b r1 r2 =
              afterRound ({ s with players := ((s.players.set i2 (healthSet pl2 (subU (addU pl2.player_health t2.defense_strength) t1.attack_strength))).set i1 (manaCut pl1 3)).set i2 (manaBoost (healthSet pl2 (subU (addU pl2.player_health t2.defense_strength) t1.attack_strength)) 3) }) b r1 r2 := by
            unfold resolve_battle resolve_battle_full
            rw [hbr]
          have hA : (s.players.set i2 (healthSet pl2 (subU (addU pl2.player_health t2.defense_strength) t1.attack_strength))).get? i1 = some pl1 := by
            rw [get?_set_other _ (Ne.symm hne)]; exact hg1
          have hB : ((s.players.set i2 (healthSet pl2 (subU (addU pl2.player_health t2.defense_strength) t1.attack_strength))).set i1 (manaCut pl1 3)).get? i1 = some (manaCut pl1 3) := get?_set_same _ hA
          rw [hres, afterRound_players]
          show (((s.players.set i2 (healthSet pl2 (subU (addU pl2.player_health t2.defense_strength) t1.attack_strength))).set i1 (manaCut pl1 3)).set i2 (manaBoost (healthSet pl2 (subU (addU pl2.player_health t2.defense_strength) t1.attack_strength)) 3)).get? i1 = _
          rw [get?_set_other _ (Ne.symm hne), hB]
          unfold manaCut
          rw [subU_of_le hmana1 hmana1b]
  · intro hm
    constructor
    · intro hwin
      rw [← haddU1] at hwin
      have hres : resolve_battle s b r1 r2 = afterRound (end_battle s b.players.2 b) b r1 r2 := by
        unfold resolve_battle resolve_battle_full
        rw [resolve_branch_DA_win hm hp1 hp2 hg1 hg2 ht1 htg1 ht2 htg2 hwin]
      have hbiE : slookup (end_battle s b.players.2 b).battle_info b.name = some bi := by
        rw [end_battle_battle_info]; exact hbi
      have hbgE : (end_battle s b.players.2 b).battles.get? bi =
          some { b with battle_status := BattleStatus.ENDED, winner := b.players.2 } := by
        rw [end_battle_battles_of hNE hbi]; exact get?_set_same _ hbg
      rw [hres, afterRound_get_battle r1 r2 hbiE hbgE]
    · intro hno
      rw [← haddU1] at hno
      refine ⟨?_, ?_, ?_⟩
      · intro habs
        have hbr := resolve_branch_DA_absorb hm hp1 hp2 hne hg1 hg2 ht1 htg1 ht2 htg2 hno habs
        have hres : resolve_battle s b r1 r2 =
            afterRound ({ s with players := ((s.players.set i1 (healthSet pl1 pl1.player_health)).set i1 (manaBoost (healthSet pl1 pl1.player_health) 3)).set i2 (manaCut pl2 3) }) b r1 r2 := by
          unfold resolve_battle resolve_battle_full
          rw [hbr]
        have hdam : (resolve_battle_full s b r1 r2).2 = ((0 : Address), (0 : Address)) := by
          unfold resolve_battle_full
          rw [hbr]
        have hA : (s.players.set i1 (healthSet pl1 pl1.player_health)).get? i1 =
            some (healthSet pl1 pl1.player_health) := get?_set_same _ hg1
        have hB : ((s.players.set i1 (healthSet pl1 pl1.player_health)).set i1 (manaBoost (healthSet pl1 pl1.player_health) 3)).get? i1 = some (manaBoost (healthSet pl1 pl1.player_health) 3) := get?_set_same _ hA
        constructor
        · rw [hres, afterRound_players]
          show (((s.players.set i1 (healthSet pl1 pl1.player_health)).set i1 (manaBoost (healthSet pl1 pl1.player_health) 3)).set i2 (manaCut pl2 3)).get? i1 = _
          rw [get?_set_other _ (Ne.symm hne), hB]
          unfold manaBoost healthSet
          rw [addU_of_lt hmana1c]
        · exact hdam
      · intro hpie
        have hbr := resolve_branch_DA_pierce hm hp1 hp2 hne hg1 hg2 ht1 htg1 ht2 htg2 hno hpie
        have hres : resolve_battle s b r1 r2 =
            afterRound ({ s with players := ((s.players.set i1 (healthSet pl1 (subU (addU pl1.player_health t1.defense_strength) t2.attack_strength))).set i1 (manaBoost (healthSet pl1 (subU (addU pl1.player_health t1.defense_strength) t2.attack_strength)) 3)).set i2 (manaCut pl2 3) }) b r1 r2 := by
          unfold resolve_battle resolve_battle_full
          rw [hbr]
        have hdam : (resolve_battle_full s b r1 r2).2 = (b.players.1, (0 : Address)) := by
          unfold resolve_battle_full
          rw [hbr]
        have hA : (s.players.set i1 (healthSet pl1 (subU (addU pl1.player_health t1.defense_strength) t2.attack_strength))).get? i1 = some (healthSet pl1 (subU (addU pl1.player_health t1.defense_strength) t2.attack_strength)) := get?_set_same _ hg1
        have hB : ((s.players.set i1 (healthSet pl1 (subU (addU pl1.player_health t1.defense_strength) t2.attack_strength))).set i1 (manaBoost (healthSet pl1 (subU (addU pl1.player_health t1.defense_strength) t2.attack_strength)) 3)).get? i1 = some (manaBoost (healthSet pl1 (subU (addU pl1.player_health t1.defense_strength) t2.attack_strength)) 3) := get?_set_same _ hA
        constructor
        · rw [hres, afterRound_players]
          show (((s.players.set i1 (healthSet pl1 (subU (addU pl1.player_health t1.defense_strength) t2.attack_strength))).set i1 (manaBoost (healthSet pl1 (subU (addU pl1.player_health t1.defense_strength) t2.attack_strength)) 3)).set i2 (manaCut pl2 3)).get? i1 = _
          rw [get?_set_other _ (Ne.symm hne), hB]
          unfold manaBoost healthSet
          rw [addU_of_lt hmana1c, haddU1,
            subU_of_le (by omega) (by omega)]
        · exact hdam
      · by_cases habs : t2.attack_strength < t1.defense_strength
        · have hbr := resolve_branch_DA_absorb hm hp1 hp2 hne hg1 hg2 ht1 htg1 ht2 htg2 hno habs
          have hres : resolve_battle s b r1 r2 =
              afterRound ({ s with players := ((s.players.set i1 (healthSet pl1 pl1.player_health)).set i1 (manaBoost (healthSet pl1 pl1.player_health) 3)).set i2 (manaCut pl2 3) }) b r1 r2 := by
            unfold resolve_battle resolve_battle_full
            rw [hbr]
          have hA : ((s.players.set i1 (healthSet pl1 pl1.player_health)).set i1 (manaBoost (healthSet pl1 pl1.player_health) 3)).get? i2 = some pl2 := by
            rw [get?_set_other _ hne, get?_set_other _ hne]; exact hg2
          rw [hres, afterRound_players]
          show (((s.players.set i1 (healthSet pl1 pl1.player_health)).set i1 (manaBoost (healthSet pl1 pl1.player_health) 3)).set i2 (manaCut pl2 3)).get? i2 = _
          rw [get?_set_same _ hA]
          unfold manaCut
          rw [subU_of_le hmana2 hmana2b]
        · have hpie := not_lt.mp habs
          have hbr := resolve_branch_DA_pierce hm hp1 hp2 hne hg1 hg2 ht1 htg1 ht2 htg2 hno hpie
          have hres : resolve_battle s b r1 r2 =
              afterRound ({ s with players := ((s.players.set i1 (healthSet pl1 (subU (addU pl1.player_health t1.defense_strength) t2.attack_strength))).set i1 (manaBoost (healthSet pl1 (subU (addU pl1.player_health t1.defense_strength) t2.attack_strength)) 3)).set i2 (manaCut pl2 3) }) b r1 r2 := by
            unfold resolve_battle resolve_battle_full
            rw [hbr]
          have hA : ((s.players.set i1 (healthSet pl1 (subU (addU pl1.player_health t1.defense_strength) t2.attack_strength))).set i1 (manaBoost (healthSet pl1 (subU (addU pl1.player_health t1.defense_strength) t2.attack_strength)) 3)).get? i2 = some pl2 := by
            rw [get?_set_other _ hne, get?_set_other _ hne]; exact hg2
          rw [hres, afterRound_players]
          show (((s.players.set i1 (healthSet pl1 (subU (addU pl1.player_health t1.defense_strength) t2.attack_strength))).set i1 (manaBoost (healthSet pl1 (subU (addU pl1.player_health t1.defense_strength) t2.attack_strength)) 3)).set i2 (manaCut pl2 3)).get? i2 = _
          rw [get?_set_same _ hA]
          unfold manaCut
          rw [subU_of_le hmana2 hmana2b]

/-- Witness for C5: the spec's scenario — attack 9 against Defend with
health 25, defense 4 (guard 29): defender's health becomes 29 − 9 = 20, the
defender is the damaged party, attacker's mana drops to 7, defender's rises
to 13. -/
theorem c5_attack_defend_resolution_witness :
    (resolve_battle pierceState adBattle 1 1).players.get? 2 =
      some { mkPlayer 2 "B" 10 25 true with player_health := 25 + 4 - 9, player_mana := 10 + 3 } ∧
    (resolve_battle_full pierceState adBattle 1 1).2 = (2, 0) ∧
    (resolve_battle pierceState adBattle 1 1).players.get? 1 =
      some { mkPlayer 1 "A" 10 25 true with player_mana := 10 - 3 } :=
  let h := (c5_attack_defend_resolution pierceState adBattle 1 1 1 1 2
      (mkPlayer 1 "A" 10 25 true) (mkPlayer 2 "B" 10 25 true) 1 2 lethalTokenA guardTokenB
      (by decide) (by decide) (by decide) (by decide) (by decide) (by decide) (by decide)
      (by decide) (by decide) (by decide) (by decide) (by decide) (by decide) (by decide)
      (by decide) (by decide) (by decide) (by decide) (by decide) (by decide)).1 (by decide)
  ⟨((h.2 (by decide)).2.1 (by decide)).1, ((h.2 (by decide)).2.1 (by decide)).2,
    (h.2 (by decide)).2.2⟩

/-- After an `end_battle` branch, the fall-through `afterRound` still runs:
the stored battle is Ended with the given winner and reset moves, both
players are reset, both tokens are re-rolled, and no further
`attack_or_defend_choice` on this battle changes the state. -/
theorem after_end_props (s : GameState) (b : Battle) (r1 r2 : Nat) (W : Address)
    (bi i1 i2 ti1 ti2 : Nat) (pl1 pl2 : Player) (t1 t2 : GameToken)
    (hNE : b.battle_status ≠ BattleStatus.ENDED)
    (hbi : slookup s.battle_info b.name = some bi)
    (hbg : s.battles.get? bi = some b)
    (hp1 : alookup s.player_info b.players.1 = some i1)
    (hp2 : alookup s.player_info b.players.2 = some i2)
    (hne : i1 ≠ i2)
    (hg1 : s.players.get? i1 = some pl1)
    (hg2 : s.players.get? i2 = some pl2)
    (ht1 : alookup s.player_token_info b.players.1 = some ti1)
    (htg1 : s.game_tokens.get? ti1 = some t1)
    (ht2 : alookup s.player_token_info b.players.2 = some ti2)
    (htg2 : s.game_tokens.get? ti2 = some t2)
    (htne : ti1 ≠ ti2) :
    get_battle (afterRound (end_battle s W b) b r1 r2) b.name =
      some { b with battle_status := BattleStatus.ENDED, winner := W, moves := (0, 0) } ∧
    (afterRound (end_battle s W b) b r1 r2).players.get? i1 = some (resetPlayer pl1) ∧
    (afterRound (end_battle s W b) b r1 r2).players.get? i2 = some (resetPlayer pl2) ∧
    (afterRound (end_battle s W b) b r1 r2).game_tokens.get? ti1 =
      some { t1 with attack_strength := create_random_num MAX_ATTACK_DEFEND_STRENGTH b.players.1 r1, defense_strength := subU MAX_ATTACK_DEFEND_STRENGTH (create_random_num MAX_ATTACK_DEFEND_STRENGTH b.players.1 r1) } ∧
    (afterRound (end_battle s W b) b r1 r2).game_tokens.get? ti2 =
      some { t2 with attack_strength := create_random_num MAX_ATTACK_DEFEND_STRENGTH b.players.2 r2, defense_strength := subU MAX_ATTACK_DEFEND_STRENGTH (create_random_num MAX_ATTACK_DEFEND_STRENGTH b.players.2 r2) } ∧
    (∀ (sender : Address) (choice r1' r2' : Nat),
      attack_or_defend_choice (afterRound (end_battle s W b) b r1 r2) sender choice b.name r1' r2' =
        afterRound (end_battle s W b) b r1 r2) := by
  have hEeq := end_battle_eq (w := W) hNE hbi hp1 hp2 hne hg1 hg2
  have hbiE : slookup (end_battle s W b).battle_info b.name = some bi := by
    rw [end_battle_battle_info]; exact hbi
  have hbgE : (end_battle s W b).battles.get? bi =
      some { b with battle_status := BattleStatus.ENDED, winner := W } := by
    rw [end_battle_battles_of hNE hbi]; exact get?_set_same _ hbg
  have h1 := afterRound_get_battle r1 r2 hbiE hbgE
  have ht1E : alookup (end_battle s W b).player_token_info
      ({ b with battle_status := BattleStatus.ENDED, winner := W } : Battle).players.1 =
      some ti1 := by
    rw [end_battle_player_token_info]; exact ht1
  have ht2E : alookup (end_battle s W b).player_token_info
      ({ b with battle_status := BattleStatus.ENDED, winner := W } : Battle).players.2 =
      some ti2 := by
    rw [end_battle_player_token_info]; exact ht2
  have htg1E : (end_battle s W b).game_tokens.get? ti1 = some t1 := by
    rw [end_battle_game_tokens]; exact htg1
  have htg2E : (end_battle s W b).game_tokens.get? ti2 = some t2 := by
    rw [end_battle_game_tokens]; exact htg2
  have htok := afterRound_tokens r1 r2 hbiE hbgE ht1E ht2E htne htg1E htg2E
  refine ⟨?_, ?_, ?_, ?_, ?_, ?_⟩
  · rw [h1]
  · rw [afterRound_players, hEeq]
    show ((s.players.set i1 _).set i2 _).get? i1 = _
    rw [get?_set_other _ (Ne.symm hne), get?_set_same _ hg1]
    rfl
  · rw [afterRound_players, hEeq]
    show ((s.players.set i1 (resetPlayer pl1)).set i2 (resetPlayer pl2)).get? i2 = _
    have hmid : (s.players.set i1 (resetPlayer pl1)).get? i2 = some pl2 := by
      rw [get?_set_other _ hne]; exact hg2
    rw [get?_set_same _ hmid]
  · exact htok.1
  · exact htok.2
  · exact no_moves_after_end h1 rfl

/-- C3 (amended): whenever a round resolution takes an end-battle branch with
winner W, `endBattle` runs (the stored battle is Ended with winner W and both
participants are reset to health 25, mana 10, not in battle) AND the
reset/re-roll path still runs afterwards — the move slots are reset to 0 and
both participants' token stats are re-rolled — and no further moves are
accepted for that battle. -/
theorem c3_endbattle_and_reroll_both_run (s : GameState) (b : Battle) (r1 r2 : Nat)
    (W : Address) (bi i1 i2 ti1 ti2 : Nat) (pl1 pl2 : Player) (t1 t2 : GameToken)
    (hst : b.battle_status = BattleStatus.STARTED)
    (hbi : slookup s.battle_info b.name = some bi)
    (hbg : s.battles.get? bi = some b)
    (hp1 : alookup s.player_info b.players.1 = some i1)
    (hp2 : alookup s.player_info b.players.2 = some i2)
    (hne : i1 ≠ i2)
    (hg1 : s.players.get? i1 = some pl1)
    (hg2 : s.players.get? i2 = some pl2)
    (ht1 : alookup s.player_token_info b.players.1 = some ti1)
    (htg1 : s.game_tokens.get? ti1 = some t1)
    (ht2 : alookup s.player_token_info b.players.2 = some ti2)
    (htg2 : s.game_tokens.get? ti2 = some t2)
    (htne : ti1 ≠ ti2)
    (hW : (b.moves = (1, 1) ∧ pl2.player_health ≤ t1.attack_strength ∧ W = b.players.1) ∨
          (b.moves = (1, 1) ∧ t1.attack_strength < pl2.player_health ∧
            pl1.player_health ≤ t2.attack_strength ∧ W = b.players.2) ∨
          (b.moves = (1, 2) ∧ addU pl2.player_health t2.defense_strength ≤ t1.attack_strength ∧
            W = b.players.1) ∨
          (b.moves = (2, 1) ∧ addU pl1.player_health t1.defense_strength ≤ t2.attack_strength ∧
            W = b.players.2)) :
    get_battle (resolve_battle s b r1 r2) b.name =
      some { b with battle_status := BattleStatus.ENDED, winner := W, moves := (0, 0) } ∧
    (resolve_battle s b r1 r2).players.get? i1 = some (resetPlayer pl1) ∧
    (resolve_battle s b r1 r2).players.get? i2 = some (resetPlayer pl2) ∧
    (resolve_battle s b r1 r2).game_tokens.get? ti1 =
      some { t1 with attack_strength := create_random_num MAX_ATTACK_DEFEND_STRENGTH b.players.1 r1, defense_strength := subU MAX_ATTACK_DEFEND_STRENGTH (create_random_num MAX_ATTACK_DEFEND_STRENGTH b.players.1 r1) } ∧
    (resolve_battle s b r1 r2).game_tokens.get? ti2 =
      some { t2 with attack_strength := create_random_num MAX_ATTACK_DEFEND_STRENGTH b.players.2 r2, defense_strength := subU MAX_ATTACK_DEFEND_STRENGTH (create_random_num MAX_ATTACK_DEFEND_STRENGTH b.players.2 r2) } ∧
    (∀ (sender : Address) (choice r1' r2' : Nat),
      attack_or_defend_choice (resolve_battle s b r1 r2) sender choice b.name r1' r2' =
        resolve_battle s b r1 r2) := by
  have hNE : b.battle_status ≠ BattleStatus.ENDED := by rw [hst]; simp
  rcases hW with ⟨hm, hc, hWeq⟩ | ⟨hm, hc1, hc2, hWeq⟩ | ⟨hm, hc, hWeq⟩ | ⟨hm, hc, hWeq⟩
  · subst hWeq
    have hres : resolve_battle s b r1 r2 = afterRound (end_battle s b.players.1 b) b r1 r2 := by
      unfold resolve_battle resolve_battle_full
      rw [resolve_branch_AA_win1 hm hp1 hp2 hg1 hg2 ht1 htg1 ht2 htg2 hc]
    rw [hres]
    exact after_end_props s b r1 r2 b.players.1 bi i1 i2 ti1 ti2 pl1 pl2 t1 t2 hNE hbi hbg
      hp1 hp2 hne hg1 hg2 ht1 htg1 ht2 htg2 htne
  · subst hWeq
    have hres : resolve_battle s b r1 r2 = afterRound (end_battle s b.players.2 b) b r1 r2 := by
      unfold resolve_battle resolve_battle_full
      rw [resolve_branch_AA_win2 hm hp1 hp2 hg1 hg2 ht1 htg1 ht2 htg2 hc1 hc2]
    rw [hres]
    exact after_end_props s b r1 r2 b.players.2 bi i1 i2 ti1 ti2 pl1 pl2 t1 t2 hNE hbi hbg
      hp1 hp2 hne hg1 hg2 ht1 htg1 ht2 htg2 htne
  · subst hWeq
    have hres : resolve_battle s b r1 r2 = afterRound (end_battle s b.players.1 b) b r1 r2 := by
      unfold resolve_battle resolve_battle_full
      rw [resolve_branch_AD_win hm hp1 hp2 hg1 hg2 ht1 htg1 ht2 htg2 hc]
    rw [hres]
    exact after_end_props s b r1 r2 b.players.1 bi i1 i2 ti1 ti2 pl1 pl2 t1 t2 hNE hbi hbg
      hp1 hp2 hne hg1 hg2 ht1 htg1 ht2 htg2 htne
  · subst hWeq
    have hres : resolve_battle s b r1 r2 = afterRound (end_battle s b.players.2 b) b r1 r2 := by
      unfold resolve_battle resolve_battle_full
      rw [resolve_branch_DA_win hm hp1 hp2 hg1 hg2 ht1 htg1 ht2 htg2 hc]
    rw [hres]
    exact after_end_props s b r1 r2 b.players.2 bi i1 i2 ti1 ti2 pl1 pl2 t1 t2 hNE hbi hbg
      hp1 hp2 hne hg1 hg2 ht1 htg1 ht2 htg2 htne

/-- Witness for C3 (amended): in the late-round state (healths 7, attack-9
tokens, both moves Attack) player 1 wins; the battle is stored Ended with
winner 1 and moves reset, both players are reset, and player 1's token is
re-rolled by the draw 3. -/
theorem c3_endbattle_and_reroll_both_run_witness :
    get_battle (resolve_battle lateState lateBattle 3 3) "Z" =
      some { lateBattle with battle_status := BattleStatus.ENDED, winner := 1, moves := (0, 0) } ∧
    (resolve_battle lateState lateBattle 3 3).players.get? 1 =
      some (resetPlayer (mkPlayer 1 "A" 4 7 true)) ∧
    (resolve_battle lateState lateBattle 3 3).game_tokens.get? 1 =
      some { lethalTokenA with attack_strength := create_random_num MAX_ATTACK_DEFEND_STRENGTH 1 3, defense_strength := subU MAX_ATTACK_DEFEND_STRENGTH (create_random_num MAX_ATTACK_DEFEND_STRENGTH 1 3) } :=
  let h := c3_endbattle_and_reroll_both_run lateState lateBattle 3 3 1 1 1 2 1 2
    (mkPlayer 1 "A" 4 7 true) (mkPlayer 2 "B" 4 7 true) lethalTokenA lethalTokenB
    (by decide) (by decide) (by decide) (by decide) (by decide) (by decide) (by decide)
    (by decide) (by decide) (by decide) (by decide) (by decide) (by decide)
    (Or.inl ⟨by decide, by decide, by decide⟩)
  ⟨h.1, h.2.1, h.2.2.2.1⟩

/-- C7: `end_battle` on a snapshot already marked Ended is a no-op (no state
change, no second notification); on a non-Ended battle it stores the battle
with status Ended and winner = the candidate, resets both participants to
health 25, mana 10, `in_battle = false`, appends exactly one battle-ended
notification whose loser is the participant that is not the winner, and any
later `end_battle` on the stored (now Ended) battle leaves the state — winner
included — unchanged. -/
theorem c7_end_battle_idempotent (s : GameState) (w : Address) (b : Battle)
    (bi i1 i2 : Nat) (bOld : Battle) (pl1 pl2 : Player)
    (hbi : slookup s.battle_info b.name = some bi)
    (hbg : s.battles.get? bi = some bOld)
    (hp1 : alookup s.player_info b.players.1 = some i1)
    (hp2 : alookup s.player_info b.players.2 = some i2)
    (hne : i1 ≠ i2)
    (hg1 : s.players.get? i1 = some pl1)
    (hg2 : s.players.get? i2 = some pl2)
    (hw : w = b.players.1 ∨ w = b.players.2)
    (hpp : b.players.1 ≠ b.players.2) :
    (b.battle_status = BattleStatus.ENDED → end_battle s w b = s) ∧
    (b.battle_status ≠ BattleStatus.ENDED →
      get_battle (end_battle s w b) b.name =
        some { b with battle_status := BattleStatus.ENDED, winner := w } ∧
      (end_battle s w b).players.get? i1 =
        some { pl1 with in_battle := false, player_health := 25, player_mana := 10 } ∧
      (end_battle s w b).players.get? i2 =
        some { pl2 with in_battle := false, player_health := 25, player_mana := 10 } ∧
      (end_battle s w b).events =
        s.events ++ [GameEvent.battleEnded b.name w
          (if w = b.players.1 then b.players.2 else b.players.1)] ∧
      (if w = b.players.1 then b.players.2 else b.players.1) ≠ w ∧
      ((if w = b.players.1 then b.players.2 else b.players.1) = b.players.1 ∨
        (if w = b.players.1 then b.players.2 else b.players.1) = b.players.2) ∧
      (∀ w', end_battle (end_battle s w b) w'
          { b with battle_status := BattleStatus.ENDED, winner := w } =
          end_battle s w b)) := by
  constructor
  · intro hE
    unfold end_battle
    rw [if_neg (by simp [hE])]
  · intro hNE
    have hg2' : (s.players.set i1
        { pl1 with in_battle := false, player_health := 25, player_mana := 10 }).get? i2 =
        some pl2 := by
      rw [get?_set_other _ hne]; exact hg2
    have hmain : end_battle s w b =
        { s with
          battles := s.battles.set bi { b with battle_status := BattleStatus.ENDED, winner := w },
          players := (s.players.set i1
              { pl1 with in_battle := false, player_health := 25, player_mana := 10 }).set i2
              { pl2 with in_battle := false, player_health := 25, player_mana := 10 },
          events := s.events ++ [GameEvent.battleEnded b.name w
            (if w = b.players.1 then b.players.2 else b.players.1)] } := by
      unfold end_battle
      rw [if_pos hNE]
      simp only [update_battle, hbi, modifyPlayerAt, hp1, hp2, hg1, hg2', Option.getD_some]
    refine ⟨?_, ?_, ?_, ?_, ?_, ?_, ?_⟩
    · rw [hmain]
      exact get_battle_of hbi (get?_set_same _ hbg)
    · rw [hmain]
      show ((s.players.set i1 _).set i2 _).get? i1 = _
      rw [get?_set_other _ (Ne.symm hne), get?_set_same _ hg1]
    · rw [hmain]
      show ((s.players.set i1 _).set i2 _).get? i2 = _
      rw [get?_set_same _ hg2']
    · rw [hmain]
    · rcases hw with hw | hw
      · rw [if_pos hw, hw]; exact fun hcon => hpp hcon.symm
      · by_cases hwp : w = b.players.1
        · rw [if_pos hwp, hwp]; exact fun hcon => hpp hcon.symm
        · rw [if_neg hwp]; exact fun hcon => hwp hcon.symm
    · by_cases hwp : w = b.players.1
      · rw [if_pos hwp]; right; rfl
      · rw [if_neg hwp]; left; rfl
    · intro w'
      unfold end_battle
      rw [if_neg (by simp)]

/-- Witness for C7: ending the Started demo battle stores it Ended with
winner 1, and the stored battle can not be ended again. -/
theorem c7_end_battle_idempotent_witness :
    get_battle (end_battle demoState 1 demoBattle) "Z" =
      some { demoBattle with battle_status := BattleStatus.ENDED, winner := 1 } ∧
    (end_battle demoState 1 demoBattle).events =
      [GameEvent.battleEnded "Z" 1 2] ∧
    (∀ w', end_battle (end_battle demoState 1 demoBattle) w'
        { demoBattle with battle_status := BattleStatus.ENDED, winner := 1 } =
        end_battle demoState 1 demoBattle) :=
  let h := (c7_end_battle_idempotent demoState 1 demoBattle 1 1 2 demoBattle
      (mkPlayer 1 "A" 10 25 true) (mkPlayer 2 "B" 10 25 true)
      (by decide) (by decide) (by decide) (by decide) (by decide) (by decide) (by decide)
      (Or.inl (by decide)) (by decide)).2 (by decide)
  ⟨h.1, h.2.2.2.1, h.2.2.2.2.2.2⟩

@[simp] theorem resolve_branch_player_token_info (s : GameState) (b : Battle) :
    (resolve_branch s b).1.player_token_info = s.player_token_info := by
  unfold resolve_branch
  simp only []
  split_ifs <;> simp

@[simp] theorem resolve_branch_game_tokens (s : GameState) (b : Battle) :
    (resolve_branch s b).1.game_tokens = s.game_tokens := by
  unfold resolve_branch
  simp only []
  split_ifs <;> simp

@[simp] theorem resolve_branch_battle_info (s : GameState) (b : Battle) :
    (resolve_branch s b).1.battle_info = s.battle_info := by
  unfold resolve_branch
  simp only []
  split_ifs <;> simp

/-- Whatever branch a resolution takes, the battle stored at the resolved
battle's index still has the same two participants. -/
theorem resolve_branch_stored {s : GameState} {b : Battle} {bi : Nat}
    (hNE : b.battle_status ≠ BattleStatus.ENDED)
    (hbi : slookup s.battle_info b.name = some bi)
    (hbg : s.battles.get? bi = some b) :
    ∃ b2, (resolve_branch s b).1.battles.get? bi = some b2 ∧ b2.players = b.players := by
  unfold resolve_branch
  simp only []
  split_ifs
  all_goals first
    | exact ⟨{ b with battle_status := BattleStatus.ENDED, winner := b.players.1 },
        by rw [end_battle_battles_of hNE hbi]; exact get?_set_same _ hbg, rfl⟩
    | exact ⟨{ b with battle_status := BattleStatus.ENDED, winner := b.players.2 },
        by rw [end_battle_battles_of hNE hbi]; exact get?_set_same _ hbg, rfl⟩
    | exact ⟨b, by simp only [modifyPlayerAt_battles]; exact hbg, rfl⟩

theorem create_random_num_bounds (sender r : Nat) :
    0 < create_random_num MAX_ATTACK_DEFEND_STRENGTH sender r ∧
    create_random_num MAX_ATTACK_DEFEND_STRENGTH sender r < MAX_ATTACK_DEFEND_STRENGTH := by
  unfold create_random_num MAX_ATTACK_DEFEND_STRENGTH
  have h : r % 10 < 10 := Nat.mod_lt _ (by norm_num)
  simp only []
  split <;> omega

theorem ten_lt_U256 : MAX_ATTACK_DEFEND_STRENGTH < U256 := by
  unfold MAX_ATTACK_DEFEND_STRENGTH U256
  norm_num

/-- C8: every token's attack and defense strengths sum to
MAX_ATTACK_DEFEND_STRENGTH (10), both at creation and after the per-round
re-roll of each participant's token. -/
theorem c8_attack_defense_sum_invariant :
    (∀ (s : GameState) (sender : Address) (name : String) (randStat randKind : Nat),
      (create_game_token s sender name randStat randKind).1.attack_strength +
        (create_game_token s sender name randStat randKind).1.defense_strength =
        MAX_ATTACK_DEFEND_STRENGTH) ∧
    (∀ (s : GameState) (b : Battle) (r1 r2 bi ti1 ti2 : Nat) (t1 t2 : GameToken),
      b.battle_status = BattleStatus.STARTED →
      slookup s.battle_info b.name = some bi →
      s.battles.get? bi = some b →
      alookup s.player_token_info b.players.1 = some ti1 →
      s.game_tokens.get? ti1 = some t1 →
      alookup s.player_token_info b.players.2 = some ti2 →
      s.game_tokens.get? ti2 = some t2 →
      ti1 ≠ ti2 →
      ∀ t, ((resolve_battle s b r1 r2).game_tokens.get? ti1 = some t ∨
            (resolve_battle s b r1 r2).game_tokens.get? ti2 = some t) →
        t.attack_strength + t.defense_strength = MAX_ATTACK_DEFEND_STRENGTH) := by
  constructor
  · intro s sender name randStat randKind
    have hb := create_random_num_bounds sender randStat
    simp only [create_game_token]
    rw [subU_of_le (le_of_lt hb.2) ten_lt_U256]
    omega
  · intro s b r1 r2 bi ti1 ti2 t1 t2 hst hbi hbg ht1 htg1 ht2 htg2 htne
    have hNE : b.battle_status ≠ BattleStatus.ENDED := by rw [hst]; simp
    obtain ⟨b2, hb2, hb2p⟩ := resolve_branch_stored hNE hbi hbg
    have hbiE : slookup (resolve_branch s b).1.battle_info b.name = some bi := by
      rw [resolve_branch_battle_info]; exact hbi
    have ht1E : alookup (resolve_branch s b).1.player_token_info b2.players.1 = some ti1 := by
      rw [resolve_branch_player_token_info, hb2p]; exact ht1
    have ht2E : alookup (resolve_branch s b).1.player_token_info b2.players.2 = some ti2 := by
      rw [resolve_branch_player_token_info, hb2p]; exact ht2
    have htg1E : (resolve_branch s b).1.game_tokens.get? ti1 = some t1 := by
      rw [resolve_branch_game_tokens]; exact htg1
    have htg2E : (resolve_branch s b).1.game_tokens.get? ti2 = some t2 := by
      rw [resolve_branch_game_tokens]; exact htg2
    have htok := afterRound_tokens r1 r2 hbiE hb2 ht1E ht2E htne htg1E htg2E
    have hres : resolve_battle s b r1 r2 = afterRound (resolve_branch s b).1 b r1 r2 := rfl
    intro t ht
    rcases ht with h | h
    · rw [hres, htok.1] at h
      rw [(Option.some.inj h).symm]
      show create_random_num MAX_ATTACK_DEFEND_STRENGTH b2.players.1 r1 +
        subU MAX_ATTACK_DEFEND_STRENGTH
          (create_random_num MAX_ATTACK_DEFEND_STRENGTH b2.players.1 r1) =
        MAX_ATTACK_DEFEND_STRENGTH
      have hb := create_random_num_bounds b2.players.1 r1
      rw [subU_of_le (le_of_lt hb.2) ten_lt_U256]
      omega
    · rw [hres, htok.2] at h
      rw [(Option.some.inj h).symm]
      show create_random_num MAX_ATTACK_DEFEND_STRENGTH b2.players.2 r2 +
        subU MAX_ATTACK_DEFEND_STRENGTH
          (create_random_num MAX_ATTACK_DEFEND_STRENGTH b2.players.2 r2) =
        MAX_ATTACK_DEFEND_STRENGTH
      have hb := create_random_num_bounds b2.players.2 r2
      rw [subU_of_le (le_of_lt hb.2) ten_lt_U256]
      omega

/-- Witness for C8: a freshly minted token and the two tokens after the demo
round's re-roll all satisfy attack + defense = 10. -/
theorem c8_attack_defense_sum_invariant_witness :
    ((create_game_token demoState 1 "t" 7 3).1.attack_strength +
      (create_game_token demoState 1 "t" 7 3).1.defense_strength =
      MAX_ATTACK_DEFEND_STRENGTH) ∧
    (∀ t, ((resolve_battle roundState roundBattle 1 1).game_tokens.get? 1 = some t ∨
           (resolve_battle roundState roundBattle 1 1).game_tokens.get? 2 = some t) →
      t.attack_strength + t.defense_strength = MAX_ATTACK_DEFEND_STRENGTH) :=
  ⟨c8_attack_defense_sum_invariant.1 demoState 1 "t" 7 3,
   c8_attack_defense_sum_invariant.2 roundState roundBattle 1 1 1 1 2 demoTokenA demoTokenB
     (by decide) (by decide) (by decide) (by decide) (by decide) (by decide) (by decide)
     (by decide)⟩

/-- C10: every stat roll — at token creation and at the per-round re-roll —
yields an attack strength strictly between 0 and MAX_ATTACK_DEFEND_STRENGTH
(a raw residue of 0 is replaced by MAX/2 = 5), so attack and defense
strengths are always strictly positive. -/
theorem c10_attack_strictly_between (s0 : GameState) :
    (∀ (s : GameState) (sender : Address) (name : String) (randStat randKind : Nat),
      0 < (create_game_token s sender name randStat randKind).1.attack_strength ∧
      (create_game_token s sender name randStat randKind).1.attack_strength <
        MAX_ATTACK_DEFEND_STRENGTH ∧
      0 < (create_game_token s sender name randStat randKind).1.defense_strength) ∧
    (∀ (b : Battle) (r1 r2 bi ti1 ti2 : Nat) (t1 t2 : GameToken),
      b.battle_status = BattleStatus.STARTED →
      slookup s0.battle_info b.name = some bi →
      s0.battles.get? bi = some b →
      alookup s0.player_token_info b.players.1 = some ti1 →
      s0.game_tokens.get? ti1 = some t1 →
      alookup s0.player_token_info b.players.2 = some ti2 →
      s0.game_tokens.get? ti2 = some t2 →
      ti1 ≠ ti2 →
      ∀ t, ((resolve_battle s0 b r1 r2).game_tokens.get? ti1 = some t ∨
            (resolve_battle s0 b r1 r2).game_tokens.get? ti2 = some t) →
        0 < t.attack_strength ∧ t.attack_strength < MAX_ATTACK_DEFEND_STRENGTH ∧
          0 < t.defense_strength) := by
  constructor
  · intro s sender name randStat randKind
    have hb := create_random_num_bounds sender randStat
    simp only [create_game_token]
    rw [subU_of_le (le_of_lt hb.2) ten_lt_U256]
    omega
  · intro b r1 r2 bi ti1 ti2 t1 t2 hst hbi hbg ht1 htg1 ht2 htg2 htne
    have hNE : b.battle_status ≠ BattleStatus.ENDED := by rw [hst]; simp
    obtain ⟨b2, hb2, hb2p⟩ := resolve_branch_stored hNE hbi hbg
    have hbiE : slookup (resolve_branch s0 b).1.battle_info b.name = some bi := by
      rw [resolve_branch_battle_info]; exact hbi
    have ht1E : alookup (resolve_branch s0 b).1.player_token_info b2.players.1 = some ti1 := by
      rw [resolve_branch_player_token_info, hb2p]; exact ht1
    have ht2E : alookup (resolve_branch s0 b).1.player_token_info b2.players.2 = some ti2 := by
      rw [resolve_branch_player_token_info, hb2p]; exact ht2
    have htg1E : (resolve_branch s0 b).1.game_tokens.get? ti1 = some t1 := by
      rw [resolve_branch_game_tokens]; exact htg1
    have htg2E : (resolve_branch s0 b).1.game_tokens.get? ti2 = some t2 := by
      rw [resolve_branch_game_tokens]; exact htg2
    have htok := afterRound_tokens r1 r2 hbiE hb2 ht1E ht2E htne htg1E htg2E
    have hres : resolve_battle s0 b r1 r2 = afterRound (resolve_branch s0 b).1 b r1 r2 := rfl
    intro t ht
    rcases ht with h | h
    · rw [hres, htok.1] at h
      rw [(Option.some.inj h).symm]
      refine ⟨?_, ?_, ?_⟩ <;>
        [skip; skip;
          show 0 < subU MAX_ATTACK_DEFEND_STRENGTH
            (create_random_num MAX_ATTACK_DEFEND_STRENGTH b2.players.1 r1)]
      · exact (create_random_num_bounds b2.players.1 r1).1
      · exact (create_random_num_bounds b2.players.1 r1).2
      · have hb := create_random_num_bounds b2.players.1 r1
        rw [subU_of_le (le_of_lt hb.2) ten_lt_U256]
        omega
    · rw [hres, htok.2] at h
      rw [(Option.some.inj h).symm]
      refine ⟨?_, ?_, ?_⟩ <;>
        [skip; skip;
          show 0 < subU MAX_ATTACK_DEFEND_STRENGTH
            (create_random_num MAX_ATTACK_DEFEND_STRENGTH b2.players.2 r2)]
      · exact (create_random_num_bounds b2.players.2 r2).1
      · exact (create_random_num_bounds b2.players.2 r2).2
      · have hb := create_random_num_bounds b2.players.2 r2
        rw [subU_of_le (le_of_lt hb.2) ten_lt_U256]
        omega

/-- Witness for C10: a fresh mint and the late-round re-roll both produce
strictly positive attack and defense strengths with attack < 10. -/
theorem c10_attack_strictly_between_witness :
    (0 < (create_game_token demoState 2 "u" 13 4).1.attack_strength ∧
      (create_game_token demoState 2 "u" 13 4).1.attack_strength <
        MAX_ATTACK_DEFEND_STRENGTH ∧
      0 < (create_game_token demoState 2 "u" 13 4).1.defense_strength) ∧
    (∀ t, ((resolve_battle lateState lateBattle 3 3).game_tokens.get? 1 = some t ∨
           (resolve_battle lateState lateBattle 3 3).game_tokens.get? 2 = some t) →
      0 < t.attack_strength ∧ t.attack_strength < MAX_ATTACK_DEFEND_STRENGTH ∧
        0 < t.defense_strength) :=
  ⟨(c10_attack_strictly_between lateState).1 demoState 2 "u" 13 4,
   (c10_attack_strictly_between lateState).2 lateBattle 3 3 1 1 2 lethalTokenA lethalTokenB
     (by decide) (by decide) (by decide) (by decide) (by decide) (by decide) (by decide)
     (by decide)⟩


end Ava
